import Mathlib

/-!
Shallow embedding of the marble-slides physics core (Vector2D, PhysicsEngine,
Marble classes of the repository's physics source file) over the reals.

Modelling conventions:
* JS numbers are modelled as real numbers.  Evaluators of user curves may
  throw or return non-finite values; both outcomes are modelled as `none`
  of an `Option ℝ` result, since every consumer in the engine treats the
  two identically (skip the sample / fall back to a default).
* JS `Infinity` sentinels used in minimum-distance searches are modelled
  as `⊤` of `WithTop ℝ`, whose order matches the JS comparisons on
  infinities (`Infinity < Infinity` is false, `x < Infinity` is true).
* The single duck-typed `evaluate` method (arity 1 for explicit/polar
  curves, arity 2 for implicit curves) and the `evaluateX`/`evaluateY`
  pair of parametric curves are split into separate fields of one record.
* Mutation of `Marble`/`Star` objects becomes explicit state passing; the
  `update` method returns the new marble, the new star list and the result
  record.  `while`/`for` loops become fuel recursion; the fuel equals the
  loop's iteration cap (50 golden-section, 20 gradient descent, 126 polar
  and parametric samples), and fuel-stabilisation theorems below show the
  caps are reached before the fuel runs out, so the embedding agrees with
  the unbounded loop.
* Fields irrelevant to the physics (display color, random id, original
  equation text) are omitted.
-/

namespace MathMarble

/-- Two-dimensional vector, mirroring the `Vector2D` class. -/
@[ext]
structure Vec2 where
  x : ℝ
  y : ℝ

namespace Vec2

/-- Componentwise addition, `Vector2D.add`. -/
def add (v w : Vec2) : Vec2 := ⟨v.x + w.x, v.y + w.y⟩

/-- Componentwise subtraction, `Vector2D.sub`. -/
def sub (v w : Vec2) : Vec2 := ⟨v.x - w.x, v.y - w.y⟩

/-- Scalar multiplication, `Vector2D.mul`. -/
def mul (v : Vec2) (s : ℝ) : Vec2 := ⟨v.x * s, v.y * s⟩

/-- Scalar division; the source returns the zero vector when dividing by zero. -/
noncomputable def div (v : Vec2) (s : ℝ) : Vec2 :=
  if s = 0 then ⟨0, 0⟩ else ⟨v.x / s, v.y / s⟩

/-- Euclidean length, `Vector2D.magnitude`. -/
noncomputable def magnitude (v : Vec2) : ℝ := Real.sqrt (v.x * v.x + v.y * v.y)

/-- Squared length, `Vector2D.magnitudeSq`. -/
def magnitudeSq (v : Vec2) : ℝ := v.x * v.x + v.y * v.y

/-- Unit vector in the direction of `v`; the zero vector normalises to itself. -/
noncomputable def normalize (v : Vec2) : Vec2 :=
  if v.magnitude = 0 then ⟨0, 0⟩ else v.div v.magnitude

/-- Dot product, `Vector2D.dot`. -/
def dot (v w : Vec2) : ℝ := v.x * w.x + v.y * w.y

/-- Rotation by 90 degrees counter-clockwise, `Vector2D.perpendicular`. -/
def perpendicular (v : Vec2) : Vec2 := ⟨-v.y, v.x⟩

/-- Linear interpolation toward `w` with factor `t`, `Vector2D.lerp`. -/
def lerp (v w : Vec2) (t : ℝ) : Vec2 :=
  ⟨v.x + (w.x - v.x) * t, v.y + (w.y - v.y) * t⟩

/-- Euclidean distance between two points, `Vector2D.distanceTo`. -/
noncomputable def distanceTo (v w : Vec2) : ℝ :=
  Real.sqrt ((v.x - w.x) * (v.x - w.x) + (v.y - w.y) * (v.y - w.y))

/-- Squared distance, `Vector2D.distanceToSq`. -/
def distanceToSq (v w : Vec2) : ℝ :=
  (v.x - w.x) * (v.x - w.x) + (v.y - w.y) * (v.y - w.y)

end Vec2

/-- Curve-family tag carried by a parsed equation object (its `type` string). -/
inductive EqKind where
  | explicit_y
  | explicit_x
  | constant_x
  | constant_y
  | implicit
  | polar
  | parametric
  | piecewise
  | inequality
deriving DecidableEq

/-- A parsed curve.  The JS object carries one duck-typed `evaluate`
function whose arity depends on `type`; here each arity gets its own
field.  A `none` result models an evaluator that throws or returns a
non-finite number. -/
structure Equation where
  type : EqKind
  evaluate : ℝ → Option ℝ
  evaluate2 : ℝ → ℝ → Option ℝ
  evaluateX : ℝ → Option ℝ
  evaluateY : ℝ → Option ℝ

/-- A target star: position, radius and the collected flag. -/
structure Star where
  x : ℝ
  y : ℝ
  radius : ℝ
  collected : Bool

/-- The marble entity (display color and random id omitted). -/
structure Marble where
  position : Vec2
  velocity : Vec2
  radius : ℝ
  onPath : Bool
  currentEquation : Option Equation
  trail : List Vec2
  maxTrailLength : ℕ
  active : Bool

/-- The `Marble` constructor with the source's default config values
(`vx = 0.1`, `vy = 0`, `radius = 0.2`, `maxTrailLength = 30`). -/
def Marble.init (x y vx vy radius : ℝ) (maxTrailLength : ℕ) : Marble :=
  { position := ⟨x, y⟩
    velocity := ⟨vx, vy⟩
    radius := radius
    onPath := false
    currentEquation := none
    trail := []
    maxTrailLength := maxTrailLength
    active := true }

/-- The `Marble.reset` method. -/
def Marble.reset (m : Marble) (x y : ℝ) : Marble :=
  { m with
    position := ⟨x, y⟩
    velocity := ⟨0.1, 0⟩
    onPath := false
    currentEquation := none
    trail := []
    active := true }

/-- The `Marble.updateTrail` method: push the current position, then evict
from the front while the trail exceeds `maxTrailLength` (expressed as one
`List.drop` of the excess length, the net effect of the `while`/`shift`
loop). -/
def Marble.updateTrail (m : Marble) : Marble :=
  let t := m.trail ++ [m.position]
  { m with trail := t.drop (t.length - m.maxTrailLength) }

/-- Geometry of the nearest point of one curve, produced fresh each step
(`distance` is a `WithTop ℝ` because the polar/parametric scans report
`Infinity` when no finite sample was found). -/
@[ext]
structure PathInfo where
  equation : Equation
  closestPoint : Vec2
  distance : WithTop ℝ
  tangent : Vec2
  normal : Vec2
  curvature : ℝ

/-- Result record of one physics update. -/
structure UpdateResult where
  starsCollected : List Star
  outOfBounds : Bool
  detached : Bool
  attached : Bool

/-- Full outcome of one update step: the new marble, the new star list and
the result record (the JS method mutates the marble and the stars and
returns only the result). -/
structure StepOutcome where
  marble : Marble
  stars : List Star
  result : UpdateResult

/-- Engine configuration: the constants set in the `PhysicsEngine`
constructor. -/
structure PhysicsEngine where
  gravity : ℝ
  timeScale : ℝ
  rollingFriction : ℝ
  airDrag : ℝ
  snapDistance : ℝ
  snapStrength : ℝ
  detachThreshold : ℝ
  maxSlopeAngle : ℝ
  bounceCoefficient : ℝ
  minVelocity : ℝ
  derivativeStep : ℝ
  searchResolution : ℝ

/-- The default configuration of the `PhysicsEngine` constructor. -/
noncomputable def PhysicsEngine.defaults : PhysicsEngine :=
  { gravity := -9.8
    timeScale := 0.016
    rollingFriction := 0.02
    airDrag := 0.01
    snapDistance := 0.5
    snapStrength := 0.4
    detachThreshold := 0.3
    maxSlopeAngle := Real.pi / 3
    bounceCoefficient := 0.6
    minVelocity := 0.001
    derivativeStep := 0.001
    searchResolution := 0.05 }

/-- Mathematical `atan2 y x` as computed by `Math.atan2` (signed zeros do
not exist in `ℝ`, so `atan2 0 0 = 0`). -/
noncomputable def atan2 (y x : ℝ) : ℝ :=
  if 0 < x then Real.arctan (y / x)
  else if x < 0 then
    if 0 ≤ y then Real.arctan (y / x) + Real.pi else Real.arctan (y / x) - Real.pi
  else
    if 0 < y then Real.pi / 2 else if y < 0 then -(Real.pi / 2) else 0

namespace PhysicsEngine

/-- Central-difference first derivative of a `y = f(x)` evaluator
(`calculateDerivative`); a failing sample yields `0`.  The optional step
argument `h` of the source is never supplied by any caller and is dropped. -/
noncomputable def calculateDerivative (cfg : PhysicsEngine) (eq : Equation) (x : ℝ) : ℝ :=
  let step := cfg.derivativeStep
  match eq.evaluate (x - step), eq.evaluate (x + step) with
  | some y1, some y2 => (y2 - y1) / (2 * step)
  | _, _ => 0

/-- Central-difference second derivative (`calculateSecondDerivative`). -/
noncomputable def calculateSecondDerivative (cfg : PhysicsEngine) (eq : Equation) (x : ℝ) : ℝ :=
  let step := cfg.derivativeStep
  match eq.evaluate (x - step), eq.evaluate x, eq.evaluate (x + step) with
  | some y0, some y1, some y2 => (y0 - 2 * y1 + y2) / (step * step)
  | _, _, _ => 0

/-- First derivative `dx/dy` for an `x = f(y)` evaluator (`calculateDerivativeX`). -/
noncomputable def calculateDerivativeX (cfg : PhysicsEngine) (eq : Equation) (y : ℝ) : ℝ :=
  let step := cfg.derivativeStep
  match eq.evaluate (y - step), eq.evaluate (y + step) with
  | some x1, some x2 => (x2 - x1) / (2 * step)
  | _, _ => 0

/-- Second derivative for an `x = f(y)` evaluator (`calculateSecondDerivativeX`). -/
noncomputable def calculateSecondDerivativeX (cfg : PhysicsEngine) (eq : Equation) (y : ℝ) : ℝ :=
  let step := cfg.derivativeStep
  match eq.evaluate (y - step), eq.evaluate y, eq.evaluate (y + step) with
  | some x0, some x1, some x2 => (x0 - 2 * x1 + x2) / (step * step)
  | _, _, _ => 0

/-- Gradient of an implicit evaluator by central differences
(`calculateGradient`); any failing or non-finite sample yields the
fallback `(0, 1)`. -/
noncomputable def calculateGradient (cfg : PhysicsEngine) (eq : Equation) (x y : ℝ) : Vec2 :=
  let step := cfg.derivativeStep
  match eq.evaluate2 (x + step) y, eq.evaluate2 (x - step) y,
        eq.evaluate2 x (y + step), eq.evaluate2 x (y - step) with
  | some fxp, some fxm, some fyp, some fym =>
      ⟨(fxp - fxm) / (2 * step), (fyp - fym) / (2 * step)⟩
  | _, _, _, _ => ⟨0, 1⟩

/-- Curvature of an implicit curve (`calculateImplicitCurvature`); a
failing sample yields `0`. -/
noncomputable def calculateImplicitCurvature (cfg : PhysicsEngine) (eq : Equation) (x y : ℝ) : ℝ :=
  let h := cfg.derivativeStep
  match eq.evaluate2 (x + h) y, eq.evaluate2 (x - h) y,
        eq.evaluate2 x (y + h), eq.evaluate2 x (y - h), eq.evaluate2 x y,
        eq.evaluate2 (x + h) (y + h), eq.evaluate2 (x + h) (y - h),
        eq.evaluate2 (x - h) (y + h), eq.evaluate2 (x - h) (y - h) with
  | some fpy, some fmy, some fxp, some fxm, some f00,
    some fpp, some fpm, some fmp, some fmm =>
      let fx := (fpy - fmy) / (2 * h)
      let fy := (fxp - fxm) / (2 * h)
      let fxx := (fpy - 2 * f00 + fmy) / (h * h)
      let fyy := (fxp - 2 * f00 + fxm) / (h * h)
      let fxy := (fpp - fpm - fmp + fmm) / (4 * h * h)
      let num := |fx * fx * fyy - 2 * fx * fy * fxy + fy * fy * fxx|
      let den := (fx * fx + fy * fy) ^ (1.5 : ℝ)
      if den = 0 then 0 else num / den
  | _, _, _, _, _, _, _, _, _ => 0

end PhysicsEngine

/-- Golden ratio constant `phi` of the golden-section searches. -/
noncomputable def goldenPhi : ℝ := (1 + Real.sqrt 5) / 2

/-- Distance from `pos` to the point `(x, f(x))` of a `y = f(x)` curve;
a failing sample counts as `Infinity` (the `distanceAt` closure of
`findClosestXOnCurve`). -/
noncomputable def distanceAtX (pos : Vec2) (eq : Equation) (x : ℝ) : WithTop ℝ :=
  match eq.evaluate x with
  | none => ⊤
  | some y => ((pos.distanceTo ⟨x, y⟩ : ℝ) : WithTop ℝ)

/-- Distance from `pos` to the point `(f(y), y)` of an `x = f(y)` curve
(the `distanceAt` closure of `findClosestYOnCurve`). -/
noncomputable def distanceAtY (pos : Vec2) (eq : Equation) (y : ℝ) : WithTop ℝ :=
  match eq.evaluate y with
  | none => ⊤
  | some x => ((pos.distanceTo ⟨x, y⟩ : ℝ) : WithTop ℝ)

/-- One golden-section bracketing loop over the abstract sample-distance
function `dAt` (shared body of `findClosestXOnCurve` and
`findClosestYOnCurve`, whose JS texts are identical up to the closure).
The loop runs while `|b - a| > 0.001 ∧ iter < 50`; the fuel argument makes
the recursion structural and is set to the iteration cap by the callers. -/
noncomputable def goldenLoop (dAt : ℝ → WithTop ℝ) (a b : ℝ) (iter : ℕ) : ℕ → ℝ × ℝ
  | 0 => (a, b)
  | fuel + 1 =>
    if |b - a| > 0.001 ∧ iter < 50 then
      let c := b - (b - a) / goldenPhi
      let d := a + (b - a) / goldenPhi
      if dAt c < dAt d then goldenLoop dAt a d (iter + 1) fuel
      else goldenLoop dAt c b (iter + 1) fuel
    else (a, b)

namespace PhysicsEngine

/-- Golden-section search for the closest `x` on a `y = f(x)` curve
(`findClosestXOnCurve`); returns the bracket midpoint. -/
noncomputable def findClosestXOnCurve (cfg : PhysicsEngine) (pos : Vec2) (eq : Equation)
    (xMin xMax : ℝ) : ℝ :=
  let r := goldenLoop (distanceAtX pos eq) xMin xMax 0 50
  (r.1 + r.2) / 2

/-- Golden-section search for the closest `y` on an `x = f(y)` curve
(`findClosestYOnCurve`). -/
noncomputable def findClosestYOnCurve (cfg : PhysicsEngine) (pos : Vec2) (eq : Equation)
    (yMin yMax : ℝ) : ℝ :=
  let r := goldenLoop (distanceAtY pos eq) yMin yMax 0 50
  (r.1 + r.2) / 2

/-- Gradient-descent loop of `findClosestPointImplicit`; an evaluator
failure breaks out returning the current point, as does `|f| < 0.01`
(converged) or a vanishing gradient. -/
noncomputable def descentLoop (cfg : PhysicsEngine) (eq : Equation) (x y : ℝ) : ℕ → ℝ × ℝ
  | 0 => (x, y)
  | fuel + 1 =>
    match eq.evaluate2 x y with
    | none => (x, y)
    | some f =>
      if |f| < 0.01 then (x, y)
      else
        let grad := cfg.calculateGradient eq x y
        let gradMag := grad.magnitude
        if gradMag < 0.001 then (x, y)
        else
          let step := f / (gradMag * gradMag)
          descentLoop cfg eq (x - grad.x * step * 0.1) (y - grad.y * step * 0.1) fuel

/-- Closest point on an implicit curve by 20 steps of gradient descent
(`findClosestPointImplicit`). -/
noncomputable def findClosestPointImplicit (cfg : PhysicsEngine) (pos : Vec2)
    (eq : Equation) : ℝ × ℝ :=
  cfg.descentLoop eq pos.x pos.y 20

end PhysicsEngine

/-- Sampling loop of `analyzePolar`: walk `theta` in steps of `0.05` up to
`thetaMax`, keeping the minimum-distance sample; failing samples are
skipped.  The loop guard leaves the loop after 126 samples (see the
fuel-stabilisation theorem), which is the fuel the caller supplies. -/
noncomputable def polarScanLoop (pos : Vec2) (eq : Equation) (thetaMax : ℝ)
    (theta bestTheta : ℝ) (bestDist : WithTop ℝ) : ℕ → ℝ × WithTop ℝ
  | 0 => (bestTheta, bestDist)
  | fuel + 1 =>
    if theta ≤ thetaMax then
      match eq.evaluate theta with
      | none => polarScanLoop pos eq thetaMax (theta + 0.05) bestTheta bestDist fuel
      | some r =>
        let p : Vec2 := ⟨r * Real.cos theta, r * Real.sin theta⟩
        let dist := pos.distanceTo p
        if (dist : WithTop ℝ) < bestDist then
          polarScanLoop pos eq thetaMax (theta + 0.05) theta (dist : WithTop ℝ) fuel
        else polarScanLoop pos eq thetaMax (theta + 0.05) bestTheta bestDist fuel
    else (bestTheta, bestDist)

/-- Sampling loop of `analyzeParametric` over `t ∈ [0, 2π]` in steps of
`0.05`; a sample is skipped when either coordinate evaluator fails. -/
noncomputable def parametricScanLoop (pos : Vec2) (eq : Equation) (tMax : ℝ)
    (t bestT : ℝ) (bestDist : WithTop ℝ) : ℕ → ℝ × WithTop ℝ
  | 0 => (bestT, bestDist)
  | fuel + 1 =>
    if t ≤ tMax then
      match eq.evaluateX t, eq.evaluateY t with
      | some px, some py =>
        let dist := pos.distanceTo ⟨px, py⟩
        if (dist : WithTop ℝ) < bestDist then
          parametricScanLoop pos eq tMax (t + 0.05) t (dist : WithTop ℝ) fuel
        else parametricScanLoop pos eq tMax (t + 0.05) bestT bestDist fuel
      | _, _ => parametricScanLoop pos eq tMax (t + 0.05) bestT bestDist fuel
    else (bestT, bestDist)

namespace PhysicsEngine

/-- Analysis of a `y = f(x)` curve (`analyzeExplicitY`): golden-section
closest point, tangent `normalize (1, f')`, normal the perpendicular,
curvature `|f''| / (1 + f'^2)^1.5`.  A failing evaluation at the found
`x` aborts with `none`. -/
noncomputable def analyzeExplicitY (cfg : PhysicsEngine) (pos : Vec2)
    (eq : Equation) : Option PathInfo :=
  let closestX := cfg.findClosestXOnCurve pos eq (pos.x - 3) (pos.x + 3)
  match eq.evaluate closestX with
  | none => none
  | some y =>
    let closestPoint : Vec2 := ⟨closestX, y⟩
    let distance := pos.distanceTo closestPoint
    let derivative := cfg.calculateDerivative eq closestX
    let tangent := (Vec2.mk 1 derivative).normalize
    let normal := tangent.perpendicular
    let secondDerivative := cfg.calculateSecondDerivative eq closestX
    let curvature := |secondDerivative| / (1 + derivative * derivative) ^ (1.5 : ℝ)
    some { equation := eq
           closestPoint := closestPoint
           distance := (distance : WithTop ℝ)
           tangent := tangent
           normal := normal
           curvature := curvature }

/-- Analysis of an `x = f(y)` curve (`analyzeExplicitX`). -/
noncomputable def analyzeExplicitX (cfg : PhysicsEngine) (pos : Vec2)
    (eq : Equation) : Option PathInfo :=
  let closestY := cfg.findClosestYOnCurve pos eq (pos.y - 3) (pos.y + 3)
  match eq.evaluate closestY with
  | none => none
  | some x =>
    let closestPoint : Vec2 := ⟨x, closestY⟩
    let distance := pos.distanceTo closestPoint
    let dxdy := cfg.calculateDerivativeX eq closestY
    let tangent := (Vec2.mk dxdy 1).normalize
    let normal := tangent.perpendicular
    let secondDerivative := cfg.calculateSecondDerivativeX eq closestY
    let curvature := |secondDerivative| / (1 + dxdy * dxdy) ^ (1.5 : ℝ)
    some { equation := eq
           closestPoint := closestPoint
           distance := (distance : WithTop ℝ)
           tangent := tangent
           normal := normal
           curvature := curvature }

/-- Analysis of an implicit curve (`analyzeImplicit`): gradient-descent
closest point, normal along the gradient, tangent its perpendicular. -/
noncomputable def analyzeImplicit (cfg : PhysicsEngine) (pos : Vec2)
    (eq : Equation) : Option PathInfo :=
  let cp := cfg.findClosestPointImplicit pos eq
  let closestPoint : Vec2 := ⟨cp.1, cp.2⟩
  let distance := pos.distanceTo closestPoint
  let gradient := cfg.calculateGradient eq cp.1 cp.2
  let normal := gradient.normalize
  let tangent := normal.perpendicular
  let curvature := cfg.calculateImplicitCurvature eq cp.1 cp.2
  some { equation := eq
         closestPoint := closestPoint
         distance := (distance : WithTop ℝ)
         tangent := tangent
         normal := normal
         curvature := curvature }

/-- Analysis of a polar curve (`analyzePolar`): coarse scan of `theta`
around the marble's angle, tangent from `dr/dtheta` by a symmetric
difference at `±0.01`, curvature fixed at `0`. -/
noncomputable def analyzePolar (cfg : PhysicsEngine) (pos : Vec2)
    (eq : Equation) : Option PathInfo :=
  let marbleTheta := atan2 pos.y pos.x
  let scan := polarScanLoop pos eq (marbleTheta + Real.pi) (marbleTheta - Real.pi)
      marbleTheta ⊤ 126
  let closestTheta := scan.1
  let minDistance := scan.2
  match eq.evaluate closestTheta, eq.evaluate (closestTheta + 0.01),
        eq.evaluate (closestTheta - 0.01) with
  | some r, some rp, some rm =>
    let drdt := (rp - rm) / 0.02
    let dxdt := drdt * Real.cos closestTheta - r * Real.sin closestTheta
    let dydt := drdt * Real.sin closestTheta + r * Real.cos closestTheta
    let tangent := (Vec2.mk dxdt dydt).normalize
    let normal := tangent.perpendicular
    some { equation := eq
           closestPoint := ⟨r * Real.cos closestTheta, r * Real.sin closestTheta⟩
           distance := minDistance
           tangent := tangent
           normal := normal
           curvature := 0 }
  | _, _, _ => none

/-- Analysis of a parametric curve (`analyzeParametric`): coarse scan of
`t ∈ [0, 2π]`, central-difference tangent at `±0.01`, curvature `0`. -/
noncomputable def analyzeParametric (cfg : PhysicsEngine) (pos : Vec2)
    (eq : Equation) : Option PathInfo :=
  let scan := parametricScanLoop pos eq (2 * Real.pi) 0 0 ⊤ 126
  let closestT := scan.1
  let minDistance := scan.2
  match eq.evaluateX closestT, eq.evaluateY closestT,
        eq.evaluateX (closestT + 0.01), eq.evaluateX (closestT - 0.01),
        eq.evaluateY (closestT + 0.01), eq.evaluateY (closestT - 0.01) with
  | some x, some y, some xp, some xm, some yp, some ym =>
    let dxdt := (xp - xm) / (2 * 0.01)
    let dydt := (yp - ym) / (2 * 0.01)
    let tangent := (Vec2.mk dxdt dydt).normalize
    let normal := tangent.perpendicular
    some { equation := eq
           closestPoint := ⟨x, y⟩
           distance := minDistance
           tangent := tangent
           normal := normal
           curvature := 0 }
  | _, _, _, _, _, _ => none

/-- Dispatch of `analyzePathAtPoint` on the curve family. -/
noncomputable def analyzePathAtPoint (cfg : PhysicsEngine) (m : Marble)
    (eq : Equation) : Option PathInfo :=
  match eq.type with
  | EqKind.explicit_y => cfg.analyzeExplicitY m.position eq
  | EqKind.piecewise => cfg.analyzeExplicitY m.position eq
  | EqKind.constant_y => cfg.analyzeExplicitY m.position eq
  | EqKind.explicit_x => cfg.analyzeExplicitX m.position eq
  | EqKind.constant_x => cfg.analyzeExplicitX m.position eq
  | EqKind.implicit => cfg.analyzeImplicit m.position eq
  | EqKind.polar => cfg.analyzePolar m.position eq
  | EqKind.parametric => cfg.analyzeParametric m.position eq
  | EqKind.inequality => none

/-- Fold of `findNearestPath`: keep the analysis with the smallest
distance, starting from `Infinity`; inequality regions are skipped. -/
noncomputable def findNearestPathAux (cfg : PhysicsEngine) (m : Marble) :
    List Equation → Option PathInfo → WithTop ℝ → Option PathInfo
  | [], best, _ => best
  | eq :: rest, best, minDist =>
    if eq.type = EqKind.inequality then cfg.findNearestPathAux m rest best minDist
    else
      match cfg.analyzePathAtPoint m eq with
      | some info =>
        if info.distance < minDist then cfg.findNearestPathAux m rest (some info) info.distance
        else cfg.findNearestPathAux m rest best minDist
      | none => cfg.findNearestPathAux m rest best minDist

/-- The `findNearestPath` method. -/
noncomputable def findNearestPath (cfg : PhysicsEngine) (m : Marble)
    (eqs : List Equation) : Option PathInfo :=
  cfg.findNearestPathAux m eqs none ⊤

/-- The `shouldAttachToPath` policy. -/
noncomputable def shouldAttachToPath (cfg : PhysicsEngine) (m : Marble)
    (p : PathInfo) : Bool :=
  let normalSpeed := |m.velocity.dot p.normal.normalize|
  let tangentSpeed := |m.velocity.dot p.tangent.normalize|
  if tangentSpeed > normalSpeed * 0.5 ∨ p.distance < ((0.1 : ℝ) : WithTop ℝ) then true
  else
    let toPath := (Vec2.mk (p.closestPoint.x - m.position.x)
        (p.closestPoint.y - m.position.y)).normalize
    if m.velocity.dot toPath > 0 then true else false

/-- The `shouldDetachFromPath` policy. -/
noncomputable def shouldDetachFromPath (cfg : PhysicsEngine) (m : Marble)
    (p : PathInfo) : Bool :=
  let slopeAngle := atan2 |p.tangent.y| |p.tangent.x|
  if slopeAngle > cfg.maxSlopeAngle ∧ m.velocity.magnitude < cfg.detachThreshold then true
  else
    let curvature := p.curvature
    if curvature ≠ 0 ∧
        m.velocity.magnitude * m.velocity.magnitude * |curvature| >
          |cfg.gravity * Real.cos slopeAngle| * 2 then true
    else false

/-- The `updateOnPath` bound-curve dynamics: snap toward the closest
point, project velocity on the tangent, add tangential gravity and
rolling friction, break symmetry toward `+x` at low speed, and apply a
normal correction when the snap residual exceeds `0.01`. -/
noncomputable def updateOnPath (cfg : PhysicsEngine) (m : Marble) (p : PathInfo)
    (dt : ℝ) : Marble :=
  let targetPosition : Vec2 := ⟨p.closestPoint.x, p.closestPoint.y⟩
  let pos1 := m.position.lerp targetPosition cfg.snapStrength
  let tangentUnit := p.tangent.normalize
  let normalUnit := p.normal.normalize
  let tangentSpeed0 := m.velocity.dot tangentUnit
  let gravityVector : Vec2 := ⟨0, cfg.gravity⟩
  let gravityAlongTangent := gravityVector.dot tangentUnit
  let tangentSpeed1 := tangentSpeed0 + gravityAlongTangent * dt
  let frictionForce := -(Real.sign tangentSpeed1) * cfg.rollingFriction * |cfg.gravity|
  let tangentSpeed2 :=
    if |frictionForce * dt| < |tangentSpeed1| then tangentSpeed1 + frictionForce * dt
    else tangentSpeed1 * 0.9
  let flip := tangentUnit.x < 0 ∧ |tangentSpeed2| < 0.1
  let effectiveTangent := if flip then tangentUnit.mul (-1) else tangentUnit
  let tangentSpeed3 := if flip then |tangentSpeed2| else tangentSpeed2
  let vel1 := effectiveTangent.mul tangentSpeed3
  let distanceFromPath := pos1.distanceTo targetPosition
  let vel2 :=
    if distanceFromPath > 0.01 then vel1.add (normalUnit.mul (-distanceFromPath * 0.5))
    else vel1
  { m with position := pos1, velocity := vel2 }

/-- The `updateInAir` free-fall dynamics: gravity, then quadratic air
drag opposing the velocity (skipped at zero speed). -/
noncomputable def updateInAir (cfg : PhysicsEngine) (m : Marble) (dt : ℝ) : Marble :=
  let v1 : Vec2 := ⟨m.velocity.x, m.velocity.y + cfg.gravity * dt⟩
  let speed := v1.magnitude
  if speed > 0 then
    let dragMagnitude := cfg.airDrag * speed * speed
    let dragForce := v1.normalize.mul (-dragMagnitude)
    { m with velocity := v1.add (dragForce.mul dt) }
  else { m with velocity := v1 }

/-- Circle-circle collision test between a marble and a star
(`checkCollision`). -/
noncomputable def checkCollision (cfg : PhysicsEngine) (m : Marble) (s : Star) : Bool :=
  let dx := m.position.x - s.x
  let dy := m.position.y - s.y
  let distanceSq := dx * dx + dy * dy
  let radiusSum := m.radius + s.radius
  decide (distanceSq < radiusSum * radiusSum)

/-- Steps 1-2 of `update`: find the nearest path and run the attach /
detach state machine, returning the updated marble and the
`(attached, detached)` result flags. -/
noncomputable def updatePathPhase (cfg : PhysicsEngine) (m : Marble) (scaledDt : ℝ)
    (eqs : List Equation) : Marble × Bool × Bool :=
  let wasOnPath := m.onPath
  match cfg.findNearestPath m eqs with
  | some pathInfo =>
    if pathInfo.distance < ((cfg.snapDistance : ℝ) : WithTop ℝ) then
      if cfg.shouldAttachToPath m pathInfo then
        let attached := !wasOnPath
        let m1 := { m with onPath := true, currentEquation := some pathInfo.equation }
        let m2 := cfg.updateOnPath m1 pathInfo scaledDt
        if cfg.shouldDetachFromPath m2 pathInfo then
          ({ m2 with onPath := false, currentEquation := none }, attached, true)
        else (m2, attached, false)
      else
        (cfg.updateInAir { m with onPath := false, currentEquation := none } scaledDt,
          false, false)
    else
      (cfg.updateInAir { m with onPath := false, currentEquation := none } scaledDt,
        false, wasOnPath)
  | none =>
    (cfg.updateInAir { m with onPath := false, currentEquation := none } scaledDt,
      false, wasOnPath)

/-- The marble after steps 1-3 of `update` (state machine plus position
integration `position += velocity * scaledDt`). -/
noncomputable def movedMarble (cfg : PhysicsEngine) (m : Marble) (dt : ℝ)
    (eqs : List Equation) : Marble :=
  let scaledDt := dt * cfg.timeScale
  let pr := cfg.updatePathPhase m scaledDt eqs
  { pr.1 with position := pr.1.position.add (pr.1.velocity.mul scaledDt) }

/-- Step 4 of `update`: mark every uncollected star hit this step as
collected; return the new star list and the list of stars collected this
step. -/
noncomputable def collideStars (cfg : PhysicsEngine) (m : Marble)
    (stars : List Star) : List Star × List Star :=
  (stars.map fun s =>
      if !s.collected && cfg.checkCollision m s then { s with collected := true } else s,
    (stars.filter fun s => !s.collected && cfg.checkCollision m s).map
      fun s => { s with collected := true })

/-- Steps 1-5 of `update` (everything before the minimum-velocity clamp). -/
noncomputable def updateCore (cfg : PhysicsEngine) (m : Marble) (dt : ℝ)
    (eqs : List Equation) (stars : List Star) : StepOutcome :=
  let scaledDt := dt * cfg.timeScale
  let pr := cfg.updatePathPhase m scaledDt eqs
  let m2 := cfg.movedMarble m dt eqs
  let cs := cfg.collideStars m2 stars
  let m3 := m2.updateTrail
  { marble := m3
    stars := cs.1
    result :=
      { starsCollected := cs.2
        outOfBounds := false
        detached := pr.2.2
        attached := pr.2.1 } }

/-- Step 6 of `update`: if the speed fell below `minVelocity`, nudge the
velocity: along the previous direction when it is nonzero, else to the
fixed vector `(0.01, gravity * 0.01)`. -/
noncomputable def clampMinVelocity (cfg : PhysicsEngine) (m : Marble) : Marble :=
  if m.velocity.magnitude < cfg.minVelocity then
    if m.velocity.magnitude > 0 then
      { m with velocity := m.velocity.normalize.mul (cfg.minVelocity * 2) }
    else { m with velocity := ⟨0.01, cfg.gravity * 0.01⟩ }
  else m

/-- The main `update` method: the core steps followed by the
minimum-velocity clamp. -/
noncomputable def update (cfg : PhysicsEngine) (m : Marble) (dt : ℝ)
    (eqs : List Equation) (stars : List Star) : StepOutcome :=
  let o := cfg.updateCore m dt eqs stars
  { o with marble := cfg.clampMinVelocity o.marble }

end PhysicsEngine


/-! ### Basic facts about the golden-section machinery -/

lemma goldenPhi_def : goldenPhi = (1 + Real.sqrt 5) / 2 := rfl

lemma sqrt5_sq : Real.sqrt 5 ^ 2 = 5 := Real.sq_sqrt (by norm_num)

lemma sqrt5_lb : (2.2360679774997896964 : ℝ) < Real.sqrt 5 := by
  have h := Real.sqrt_lt_sqrt (by norm_num : (0:ℝ) ≤ 2.2360679774997896964 ^ 2)
    (by norm_num : (2.2360679774997896964:ℝ)^2 < 5)
  rwa [Real.sqrt_sq (by norm_num : (0:ℝ) ≤ 2.2360679774997896964)] at h

lemma sqrt5_ub : Real.sqrt 5 < 2.2360679774997896965 := by
  have h := Real.sqrt_lt_sqrt (by norm_num : (0:ℝ) ≤ 5)
    (by norm_num : (5:ℝ) < 2.2360679774997896965 ^ 2)
  rwa [Real.sqrt_sq (by norm_num : (0:ℝ) ≤ 2.2360679774997896965)] at h

lemma goldenPhi_ne : goldenPhi ≠ 0 := by
  rw [goldenPhi_def]
  nlinarith [sqrt5_lb]

lemma div_goldenPhi (x : ℝ) : x / goldenPhi = x * (goldenPhi - 1) := by
  rw [eq_comm, mul_comm, eq_comm, div_eq_iff goldenPhi_ne, goldenPhi_def]
  linear_combination (-(x/4)) * sqrt5_sq

lemma goldenLoop_stop (dAt : ℝ → WithTop ℝ) (a b : ℝ) (i f : ℕ)
    (hw : ¬(|b - a| > 0.001)) : goldenLoop dAt a b i f = (a, b) := by
  cases f with
  | zero => rfl
  | succ g =>
    rw [goldenLoop]
    rw [if_neg]
    intro hc
    exact hw hc.1

lemma goldenLoop_step_lt (dAt : ℝ → WithTop ℝ) (a b c d : ℝ) (i f g : ℕ)
    (hf : f = g + 1)
    (hw : |b - a| > 0.001) (hi : i < 50)
    (hc : c = b - (b - a) / goldenPhi) (hd : d = a + (b - a) / goldenPhi)
    (hlt : dAt c < dAt d) :
    goldenLoop dAt a b i f = goldenLoop dAt a d (i + 1) g := by
  subst hf
  rw [goldenLoop, if_pos ⟨hw, hi⟩]
  rw [← hc, ← hd, if_pos hlt]

lemma goldenLoop_step_ge (dAt : ℝ → WithTop ℝ) (a b c d : ℝ) (i f g : ℕ)
    (hf : f = g + 1)
    (hw : |b - a| > 0.001) (hi : i < 50)
    (hc : c = b - (b - a) / goldenPhi) (hd : d = a + (b - a) / goldenPhi)
    (hge : ¬(dAt c < dAt d)) :
    goldenLoop dAt a b i f = goldenLoop dAt c b (i + 1) g := by
  subst hf
  rw [goldenLoop, if_pos ⟨hw, hi⟩]
  rw [← hc, ← hd, if_neg hge]

set_option maxHeartbeats 4000000 in
/-- Replay of the 19 golden-section iterations that the search performs on
any distance function of the shape `x has distance increasing in the
squared offset from t0` (the case of a constant curve: the distance to
the sample at `t0 + u` is `sqrt (u ^ 2 + K)`).  The bracket after the
loop is a universal pair of offsets from `t0` in `ℤ + ℤ * sqrt 5`. -/
lemma goldenLoop_const_result (dAt : ℝ → WithTop ℝ) (t0 : ℝ)
    (hcmp : ∀ u v : ℝ, (dAt (t0 + u) < dAt (t0 + v) ↔ u ^ 2 < v ^ 2)) :
    goldenLoop dAt (t0 - 3) (t0 + 3) 0 50 = (t0 + (36714 + (-16419) * Real.sqrt 5), t0 + (8667 + (-3876) * Real.sqrt 5)) := by
  have hq0 : (((-6) + 3 * Real.sqrt 5) : ℝ) ^ 2 - ((6 + (-3) * Real.sqrt 5) : ℝ) ^ 2 = 0 + 0 * Real.sqrt 5 := by linear_combination (0 : ℝ) * sqrt5_sq
  rw [goldenLoop_step_ge dAt (t0 - 3) (t0 + 3) (t0 + (6 + (-3) * Real.sqrt 5)) (t0 + ((-6) + 3 * Real.sqrt 5)) 0 50 49 rfl (by rw [show (t0 + 3) - (t0 - 3) = 6 + 0 * Real.sqrt 5 from by ring, abs_of_pos (by linarith [sqrt5_lb, sqrt5_ub])]; linarith [sqrt5_lb, sqrt5_ub]) (by norm_num) (by rw [div_goldenPhi, goldenPhi_def]; linear_combination (0 : ℝ) * sqrt5_sq) (by rw [div_goldenPhi, goldenPhi_def]; linear_combination (0 : ℝ) * sqrt5_sq) (by rw [hcmp]; push_neg; nlinarith [sqrt5_lb, sqrt5_ub, hq0])]
  have hq1 : ((15 + (-6) * Real.sqrt 5) : ℝ) ^ 2 - (((-6) + 3 * Real.sqrt 5) : ℝ) ^ 2 = 324 + (-144) * Real.sqrt 5 := by linear_combination (27 : ℝ) * sqrt5_sq
  rw [goldenLoop_step_lt dAt (t0 + (6 + (-3) * Real.sqrt 5)) (t0 + 3) (t0 + ((-6) + 3 * Real.sqrt 5)) (t0 + (15 + (-6) * Real.sqrt 5)) 1 49 48 rfl (by rw [show (t0 + 3) - (t0 + (6 + (-3) * Real.sqrt 5)) = (-3) + 3 * Real.sqrt 5 from by ring, abs_of_pos (by linarith [sqrt5_lb, sqrt5_ub])]; linarith [sqrt5_lb, sqrt5_ub]) (by norm_num) (by rw [div_goldenPhi, goldenPhi_def]; linear_combination ((3/2) : ℝ) * sqrt5_sq) (by rw [div_goldenPhi, goldenPhi_def]; linear_combination (((-3)/2) : ℝ) * sqrt5_sq) (by rw [hcmp]; nlinarith [sqrt5_lb, sqrt5_ub, hq1])]
  have hq2 : (((-6) + 3 * Real.sqrt 5) : ℝ) ^ 2 - ((27 + (-12) * Real.sqrt 5) : ℝ) ^ 2 = (-1368) + 612 * Real.sqrt 5 := by linear_combination ((-135) : ℝ) * sqrt5_sq
  rw [goldenLoop_step_lt dAt (t0 + (6 + (-3) * Real.sqrt 5)) (t0 + (15 + (-6) * Real.sqrt 5)) (t0 + (27 + (-12) * Real.sqrt 5)) (t0 + ((-6) + 3 * Real.sqrt 5)) 2 48 47 rfl (by rw [show (t0 + (15 + (-6) * Real.sqrt 5)) - (t0 + (6 + (-3) * Real.sqrt 5)) = 9 + (-3) * Real.sqrt 5 from by ring, abs_of_pos (by linarith [sqrt5_lb, sqrt5_ub])]; linarith [sqrt5_lb, sqrt5_ub]) (by norm_num) (by rw [div_goldenPhi, goldenPhi_def]; linear_combination (((-3)/2) : ℝ) * sqrt5_sq) (by rw [div_goldenPhi, goldenPhi_def]; linear_combination ((3/2) : ℝ) * sqrt5_sq) (by rw [hcmp]; nlinarith [sqrt5_lb, sqrt5_ub, hq2])]
  have hq3 : ((27 + (-12) * Real.sqrt 5) : ℝ) ^ 2 - (((-27) + 12 * Real.sqrt 5) : ℝ) ^ 2 = 0 + 0 * Real.sqrt 5 := by linear_combination (0 : ℝ) * sqrt5_sq
  rw [goldenLoop_step_ge dAt (t0 + (6 + (-3) * Real.sqrt 5)) (t0 + ((-6) + 3 * Real.sqrt 5)) (t0 + ((-27) + 12 * Real.sqrt 5)) (t0 + (27 + (-12) * Real.sqrt 5)) 3 47 46 rfl (by rw [show (t0 + ((-6) + 3 * Real.sqrt 5)) - (t0 + (6 + (-3) * Real.sqrt 5)) = (-12) + 6 * Real.sqrt 5 from by ring, abs_of_pos (by linarith [sqrt5_lb, sqrt5_ub])]; linarith [sqrt5_lb, sqrt5_ub]) (by norm_num) (by rw [div_goldenPhi, goldenPhi_def]; linear_combination (3 : ℝ) * sqrt5_sq) (by rw [div_goldenPhi, goldenPhi_def]; linear_combination ((-3) : ℝ) * sqrt5_sq) (by rw [hcmp]; push_neg; nlinarith [sqrt5_lb, sqrt5_ub, hq3])]
  have hq4 : (((-60) + 27 * Real.sqrt 5) : ℝ) ^ 2 - ((27 + (-12) * Real.sqrt 5) : ℝ) ^ 2 = 5796 + (-2592) * Real.sqrt 5 := by linear_combination (585 : ℝ) * sqrt5_sq
  rw [goldenLoop_step_lt dAt (t0 + ((-27) + 12 * Real.sqrt 5)) (t0 + ((-6) + 3 * Real.sqrt 5)) (t0 + (27 + (-12) * Real.sqrt 5)) (t0 + ((-60) + 27 * Real.sqrt 5)) 4 46 45 rfl (by rw [show (t0 + ((-6) + 3 * Real.sqrt 5)) - (t0 + ((-27) + 12 * Real.sqrt 5)) = 21 + (-9) * Real.sqrt 5 from by ring, abs_of_pos (by linarith [sqrt5_lb, sqrt5_ub])]; linarith [sqrt5_lb, sqrt5_ub]) (by norm_num) (by rw [div_goldenPhi, goldenPhi_def]; linear_combination (((-9)/2) : ℝ) * sqrt5_sq) (by rw [div_goldenPhi, goldenPhi_def]; linear_combination ((9/2) : ℝ) * sqrt5_sq) (by rw [hcmp]; nlinarith [sqrt5_lb, sqrt5_ub, hq4])]
  have hq5 : ((27 + (-12) * Real.sqrt 5) : ℝ) ^ 2 - (((-114) + 51 * Real.sqrt 5) : ℝ) ^ 2 = (-24552) + 10980 * Real.sqrt 5 := by linear_combination ((-2457) : ℝ) * sqrt5_sq
  rw [goldenLoop_step_lt dAt (t0 + ((-27) + 12 * Real.sqrt 5)) (t0 + ((-60) + 27 * Real.sqrt 5)) (t0 + ((-114) + 51 * Real.sqrt 5)) (t0 + (27 + (-12) * Real.sqrt 5)) 5 45 44 rfl (by rw [show (t0 + ((-60) + 27 * Real.sqrt 5)) - (t0 + ((-27) + 12 * Real.sqrt 5)) = (-33) + 15 * Real.sqrt 5 from by ring, abs_of_pos (by linarith [sqrt5_lb, sqrt5_ub])]; linarith [sqrt5_lb, sqrt5_ub]) (by norm_num) (by rw [div_goldenPhi, goldenPhi_def]; linear_combination ((15/2) : ℝ) * sqrt5_sq) (by rw [div_goldenPhi, goldenPhi_def]; linear_combination (((-15)/2) : ℝ) * sqrt5_sq) (by rw [hcmp]; nlinarith [sqrt5_lb, sqrt5_ub, hq5])]
  have hq6 : (((-114) + 51 * Real.sqrt 5) : ℝ) ^ 2 - ((114 + (-51) * Real.sqrt 5) : ℝ) ^ 2 = 0 + 0 * Real.sqrt 5 := by linear_combination (0 : ℝ) * sqrt5_sq
  rw [goldenLoop_step_ge dAt (t0 + ((-27) + 12 * Real.sqrt 5)) (t0 + (27 + (-12) * Real.sqrt 5)) (t0 + (114 + (-51) * Real.sqrt 5)) (t0 + ((-114) + 51 * Real.sqrt 5)) 6 44 43 rfl (by rw [show (t0 + (27 + (-12) * Real.sqrt 5)) - (t0 + ((-27) + 12 * Real.sqrt 5)) = 54 + (-24) * Real.sqrt 5 from by ring, abs_of_pos (by linarith [sqrt5_lb, sqrt5_ub])]; linarith [sqrt5_lb, sqrt5_ub]) (by norm_num) (by rw [div_goldenPhi, goldenPhi_def]; linear_combination ((-12) : ℝ) * sqrt5_sq) (by rw [div_goldenPhi, goldenPhi_def]; linear_combination (12 : ℝ) * sqrt5_sq) (by rw [hcmp]; push_neg; nlinarith [sqrt5_lb, sqrt5_ub, hq6])]
  have hq7 : ((255 + (-114) * Real.sqrt 5) : ℝ) ^ 2 - (((-114) + 51 * Real.sqrt 5) : ℝ) ^ 2 = 104004 + (-46512) * Real.sqrt 5 := by linear_combination (10395 : ℝ) * sqrt5_sq
  rw [goldenLoop_step_lt dAt (t0 + (114 + (-51) * Real.sqrt 5)) (t0 + (27 + (-12) * Real.sqrt 5)) (t0 + ((-114) + 51 * Real.sqrt 5)) (t0 + (255 + (-114) * Real.sqrt 5)) 7 43 42 rfl (by rw [show (t0 + (27 + (-12) * Real.sqrt 5)) - (t0 + (114 + (-51) * Real.sqrt 5)) = (-87) + 39 * Real.sqrt 5 from by ring, abs_of_pos (by linarith [sqrt5_lb, sqrt5_ub])]; linarith [sqrt5_lb, sqrt5_ub]) (by norm_num) (by rw [div_goldenPhi, goldenPhi_def]; linear_combination ((39/2) : ℝ) * sqrt5_sq) (by rw [div_goldenPhi, goldenPhi_def]; linear_combination (((-39)/2) : ℝ) * sqrt5_sq) (by rw [hcmp]; nlinarith [sqrt5_lb, sqrt5_ub, hq7])]
  have hq8 : (((-114) + 51 * Real.sqrt 5) : ℝ) ^ 2 - ((483 + (-216) * Real.sqrt 5) : ℝ) ^ 2 = (-440568) + 197028 * Real.sqrt 5 := by linear_combination ((-44055) : ℝ) * sqrt5_sq
  rw [goldenLoop_step_lt dAt (t0 + (114 + (-51) * Real.sqrt 5)) (t0 + (255 + (-114) * Real.sqrt 5)) (t0 + (483 + (-216) * Real.sqrt 5)) (t0 + ((-114) + 51 * Real.sqrt 5)) 8 42 41 rfl (by rw [show (t0 + (255 + (-114) * Real.sqrt 5)) - (t0 + (114 + (-51) * Real.sqrt 5)) = 141 + (-63) * Real.sqrt 5 from by ring, abs_of_pos (by linarith [sqrt5_lb, sqrt5_ub])]; linarith [sqrt5_lb, sqrt5_ub]) (by norm_num) (by rw [div_goldenPhi, goldenPhi_def]; linear_combination (((-63)/2) : ℝ) * sqrt5_sq) (by rw [div_goldenPhi, goldenPhi_def]; linear_combination ((63/2) : ℝ) * sqrt5_sq) (by rw [hcmp]; nlinarith [sqrt5_lb, sqrt5_ub, hq8])]
  have hq9 : ((483 + (-216) * Real.sqrt 5) : ℝ) ^ 2 - (((-483) + 216 * Real.sqrt 5) : ℝ) ^ 2 = 0 + 0 * Real.sqrt 5 := by linear_combination (0 : ℝ) * sqrt5_sq
  rw [goldenLoop_step_ge dAt (t0 + (114 + (-51) * Real.sqrt 5)) (t0 + ((-114) + 51 * Real.sqrt 5)) (t0 + ((-483) + 216 * Real.sqrt 5)) (t0 + (483 + (-216) * Real.sqrt 5)) 9 41 40 rfl (by rw [show (t0 + ((-114) + 51 * Real.sqrt 5)) - (t0 + (114 + (-51) * Real.sqrt 5)) = (-228) + 102 * Real.sqrt 5 from by ring, abs_of_pos (by linarith [sqrt5_lb, sqrt5_ub])]; linarith [sqrt5_lb, sqrt5_ub]) (by norm_num) (by rw [div_goldenPhi, goldenPhi_def]; linear_combination (51 : ℝ) * sqrt5_sq) (by rw [div_goldenPhi, goldenPhi_def]; linear_combination ((-51) : ℝ) * sqrt5_sq) (by rw [hcmp]; push_neg; nlinarith [sqrt5_lb, sqrt5_ub, hq9])]
  have hq10 : (((-1080) + 483 * Real.sqrt 5) : ℝ) ^ 2 - ((483 + (-216) * Real.sqrt 5) : ℝ) ^ 2 = 1866276 + (-834624) * Real.sqrt 5 := by linear_combination (186633 : ℝ) * sqrt5_sq
  rw [goldenLoop_step_lt dAt (t0 + ((-483) + 216 * Real.sqrt 5)) (t0 + ((-114) + 51 * Real.sqrt 5)) (t0 + (483 + (-216) * Real.sqrt 5)) (t0 + ((-1080) + 483 * Real.sqrt 5)) 10 40 39 rfl (by rw [show (t0 + ((-114) + 51 * Real.sqrt 5)) - (t0 + ((-483) + 216 * Real.sqrt 5)) = 369 + (-165) * Real.sqrt 5 from by ring, abs_of_pos (by linarith [sqrt5_lb, sqrt5_ub])]; linarith [sqrt5_lb, sqrt5_ub]) (by norm_num) (by rw [div_goldenPhi, goldenPhi_def]; linear_combination (((-165)/2) : ℝ) * sqrt5_sq) (by rw [div_goldenPhi, goldenPhi_def]; linear_combination ((165/2) : ℝ) * sqrt5_sq) (by rw [hcmp]; nlinarith [sqrt5_lb, sqrt5_ub, hq10])]
  have hq11 : ((483 + (-216) * Real.sqrt 5) : ℝ) ^ 2 - (((-2046) + 915 * Real.sqrt 5) : ℝ) ^ 2 = (-7905672) + 3535524 * Real.sqrt 5 := by linear_combination ((-790569) : ℝ) * sqrt5_sq
  rw [goldenLoop_step_lt dAt (t0 + ((-483) + 216 * Real.sqrt 5)) (t0 + ((-1080) + 483 * Real.sqrt 5)) (t0 + ((-2046) + 915 * Real.sqrt 5)) (t0 + (483 + (-216) * Real.sqrt 5)) 11 39 38 rfl (by rw [show (t0 + ((-1080) + 483 * Real.sqrt 5)) - (t0 + ((-483) + 216 * Real.sqrt 5)) = (-597) + 267 * Real.sqrt 5 from by ring, abs_of_pos (by linarith [sqrt5_lb, sqrt5_ub])]; linarith [sqrt5_lb, sqrt5_ub]) (by norm_num) (by rw [div_goldenPhi, goldenPhi_def]; linear_combination ((267/2) : ℝ) * sqrt5_sq) (by rw [div_goldenPhi, goldenPhi_def]; linear_combination (((-267)/2) : ℝ) * sqrt5_sq) (by rw [hcmp]; nlinarith [sqrt5_lb, sqrt5_ub, hq11])]
  have hq12 : (((-2046) + 915 * Real.sqrt 5) : ℝ) ^ 2 - ((2046 + (-915) * Real.sqrt 5) : ℝ) ^ 2 = 0 + 0 * Real.sqrt 5 := by linear_combination (0 : ℝ) * sqrt5_sq
  rw [goldenLoop_step_ge dAt (t0 + ((-483) + 216 * Real.sqrt 5)) (t0 + (483 + (-216) * Real.sqrt 5)) (t0 + (2046 + (-915) * Real.sqrt 5)) (t0 + ((-2046) + 915 * Real.sqrt 5)) 12 38 37 rfl (by rw [show (t0 + (483 + (-216) * Real.sqrt 5)) - (t0 + ((-483) + 216 * Real.sqrt 5)) = 966 + (-432) * Real.sqrt 5 from by ring, abs_of_pos (by linarith [sqrt5_lb, sqrt5_ub])]; linarith [sqrt5_lb, sqrt5_ub]) (by norm_num) (by rw [div_goldenPhi, goldenPhi_def]; linear_combination ((-216) : ℝ) * sqrt5_sq) (by rw [div_goldenPhi, goldenPhi_def]; linear_combination (216 : ℝ) * sqrt5_sq) (by rw [hcmp]; push_neg; nlinarith [sqrt5_lb, sqrt5_ub, hq12])]
  have hq13 : ((4575 + (-2046) * Real.sqrt 5) : ℝ) ^ 2 - (((-2046) + 915 * Real.sqrt 5) : ℝ) ^ 2 = 33488964 + (-14976720) * Real.sqrt 5 := by linear_combination (3348891 : ℝ) * sqrt5_sq
  rw [goldenLoop_step_lt dAt (t0 + (2046 + (-915) * Real.sqrt 5)) (t0 + (483 + (-216) * Real.sqrt 5)) (t0 + ((-2046) + 915 * Real.sqrt 5)) (t0 + (4575 + (-2046) * Real.sqrt 5)) 13 37 36 rfl (by rw [show (t0 + (483 + (-216) * Real.sqrt 5)) - (t0 + (2046 + (-915) * Real.sqrt 5)) = (-1563) + 699 * Real.sqrt 5 from by ring, abs_of_pos (by linarith [sqrt5_lb, sqrt5_ub])]; linarith [sqrt5_lb, sqrt5_ub]) (by norm_num) (by rw [div_goldenPhi, goldenPhi_def]; linear_combination ((699/2) : ℝ) * sqrt5_sq) (by rw [div_goldenPhi, goldenPhi_def]; linear_combination (((-699)/2) : ℝ) * sqrt5_sq) (by rw [hcmp]; nlinarith [sqrt5_lb, sqrt5_ub, hq13])]
  have hq14 : (((-2046) + 915 * Real.sqrt 5) : ℝ) ^ 2 - ((8667 + (-3876) * Real.sqrt 5) : ℝ) ^ 2 = (-141861528) + 63442404 * Real.sqrt 5 := by linear_combination ((-14186151) : ℝ) * sqrt5_sq
  rw [goldenLoop_step_lt dAt (t0 + (2046 + (-915) * Real.sqrt 5)) (t0 + (4575 + (-2046) * Real.sqrt 5)) (t0 + (8667 + (-3876) * Real.sqrt 5)) (t0 + ((-2046) + 915 * Real.sqrt 5)) 14 36 35 rfl (by rw [show (t0 + (4575 + (-2046) * Real.sqrt 5)) - (t0 + (2046 + (-915) * Real.sqrt 5)) = 2529 + (-1131) * Real.sqrt 5 from by ring, abs_of_pos (by linarith [sqrt5_lb, sqrt5_ub])]; linarith [sqrt5_lb, sqrt5_ub]) (by norm_num) (by rw [div_goldenPhi, goldenPhi_def]; linear_combination (((-1131)/2) : ℝ) * sqrt5_sq) (by rw [div_goldenPhi, goldenPhi_def]; linear_combination ((1131/2) : ℝ) * sqrt5_sq) (by rw [hcmp]; nlinarith [sqrt5_lb, sqrt5_ub, hq14])]
  have hq15 : ((8667 + (-3876) * Real.sqrt 5) : ℝ) ^ 2 - (((-8667) + 3876 * Real.sqrt 5) : ℝ) ^ 2 = 0 + 0 * Real.sqrt 5 := by linear_combination (0 : ℝ) * sqrt5_sq
  rw [goldenLoop_step_ge dAt (t0 + (2046 + (-915) * Real.sqrt 5)) (t0 + ((-2046) + 915 * Real.sqrt 5)) (t0 + ((-8667) + 3876 * Real.sqrt 5)) (t0 + (8667 + (-3876) * Real.sqrt 5)) 15 35 34 rfl (by rw [show (t0 + ((-2046) + 915 * Real.sqrt 5)) - (t0 + (2046 + (-915) * Real.sqrt 5)) = (-4092) + 1830 * Real.sqrt 5 from by ring, abs_of_pos (by linarith [sqrt5_lb, sqrt5_ub])]; linarith [sqrt5_lb, sqrt5_ub]) (by norm_num) (by rw [div_goldenPhi, goldenPhi_def]; linear_combination (915 : ℝ) * sqrt5_sq) (by rw [div_goldenPhi, goldenPhi_def]; linear_combination ((-915) : ℝ) * sqrt5_sq) (by rw [hcmp]; push_neg; nlinarith [sqrt5_lb, sqrt5_ub, hq15])]
  have hq16 : (((-19380) + 8667 * Real.sqrt 5) : ℝ) ^ 2 - ((8667 + (-3876) * Real.sqrt 5) : ℝ) ^ 2 = 600935076 + (-268746336) * Real.sqrt 5 := by linear_combination (60093513 : ℝ) * sqrt5_sq
  rw [goldenLoop_step_lt dAt (t0 + ((-8667) + 3876 * Real.sqrt 5)) (t0 + ((-2046) + 915 * Real.sqrt 5)) (t0 + (8667 + (-3876) * Real.sqrt 5)) (t0 + ((-19380) + 8667 * Real.sqrt 5)) 16 34 33 rfl (by rw [show (t0 + ((-2046) + 915 * Real.sqrt 5)) - (t0 + ((-8667) + 3876 * Real.sqrt 5)) = 6621 + (-2961) * Real.sqrt 5 from by ring, abs_of_pos (by linarith [sqrt5_lb, sqrt5_ub])]; linarith [sqrt5_lb, sqrt5_ub]) (by norm_num) (by rw [div_goldenPhi, goldenPhi_def]; linear_combination (((-2961)/2) : ℝ) * sqrt5_sq) (by rw [div_goldenPhi, goldenPhi_def]; linear_combination ((2961/2) : ℝ) * sqrt5_sq) (by rw [hcmp]; nlinarith [sqrt5_lb, sqrt5_ub, hq16])]
  have hq17 : ((8667 + (-3876) * Real.sqrt 5) : ℝ) ^ 2 - (((-36714) + 16419 * Real.sqrt 5) : ℝ) ^ 2 = (-2545601832) + 1138427748 * Real.sqrt 5 := by linear_combination ((-254560185) : ℝ) * sqrt5_sq
  rw [goldenLoop_step_lt dAt (t0 + ((-8667) + 3876 * Real.sqrt 5)) (t0 + ((-19380) + 8667 * Real.sqrt 5)) (t0 + ((-36714) + 16419 * Real.sqrt 5)) (t0 + (8667 + (-3876) * Real.sqrt 5)) 17 33 32 rfl (by rw [show (t0 + ((-19380) + 8667 * Real.sqrt 5)) - (t0 + ((-8667) + 3876 * Real.sqrt 5)) = (-10713) + 4791 * Real.sqrt 5 from by ring, abs_of_pos (by linarith [sqrt5_lb, sqrt5_ub])]; linarith [sqrt5_lb, sqrt5_ub]) (by norm_num) (by rw [div_goldenPhi, goldenPhi_def]; linear_combination ((4791/2) : ℝ) * sqrt5_sq) (by rw [div_goldenPhi, goldenPhi_def]; linear_combination (((-4791)/2) : ℝ) * sqrt5_sq) (by rw [hcmp]; nlinarith [sqrt5_lb, sqrt5_ub, hq17])]
  have hq18 : (((-36714) + 16419 * Real.sqrt 5) : ℝ) ^ 2 - ((36714 + (-16419) * Real.sqrt 5) : ℝ) ^ 2 = 0 + 0 * Real.sqrt 5 := by linear_combination (0 : ℝ) * sqrt5_sq
  rw [goldenLoop_step_ge dAt (t0 + ((-8667) + 3876 * Real.sqrt 5)) (t0 + (8667 + (-3876) * Real.sqrt 5)) (t0 + (36714 + (-16419) * Real.sqrt 5)) (t0 + ((-36714) + 16419 * Real.sqrt 5)) 18 32 31 rfl (by rw [show (t0 + (8667 + (-3876) * Real.sqrt 5)) - (t0 + ((-8667) + 3876 * Real.sqrt 5)) = 17334 + (-7752) * Real.sqrt 5 from by ring, abs_of_pos (by linarith [sqrt5_lb, sqrt5_ub])]; linarith [sqrt5_lb, sqrt5_ub]) (by norm_num) (by rw [div_goldenPhi, goldenPhi_def]; linear_combination ((-3876) : ℝ) * sqrt5_sq) (by rw [div_goldenPhi, goldenPhi_def]; linear_combination (3876 : ℝ) * sqrt5_sq) (by rw [hcmp]; push_neg; nlinarith [sqrt5_lb, sqrt5_ub, hq18])]
  rw [goldenLoop_stop _ _ _ _ _ (by rw [show (t0 + (8667 + (-3876) * Real.sqrt 5)) - (t0 + (36714 + (-16419) * Real.sqrt 5)) = (-28047) + 12543 * Real.sqrt 5 from by ring, abs_of_pos (by linarith [sqrt5_lb, sqrt5_ub])]; push_neg; linarith [sqrt5_lb, sqrt5_ub])]


/-- The midpoint offset the golden-section search returns for any
constant-evaluator curve: about `1.983e-4`, small but nonzero. -/
noncomputable def goldenResidual : ℝ := (45381 - 20295 * Real.sqrt 5) / 2

lemma goldenResidual_pos : 0 < goldenResidual := by
  unfold goldenResidual
  nlinarith [sqrt5_lb, sqrt5_ub]

lemma goldenResidual_lt : goldenResidual < 0.001 := by
  unfold goldenResidual
  nlinarith [sqrt5_lb, sqrt5_ub]

/-! ### Small vector facts -/

lemma Vec2.magnitude_nonneg (v : Vec2) : 0 ≤ v.magnitude := Real.sqrt_nonneg _

lemma Vec2.eq_zero_of_magnitude_eq_zero (v : Vec2) (h : v.magnitude = 0) : v = ⟨0, 0⟩ := by
  have h0 : (0:ℝ) ≤ v.x * v.x + v.y * v.y := by nlinarith [sq_nonneg v.x, sq_nonneg v.y]
  have hx : v.x * v.x + v.y * v.y = 0 := (Real.sqrt_eq_zero h0).mp h
  have hx1 : v.x = 0 := by nlinarith [sq_nonneg v.x, sq_nonneg v.y]
  have hy1 : v.y = 0 := by nlinarith [sq_nonneg v.x, sq_nonneg v.y]
  exact Vec2.ext hx1 hy1

/-! ### Field-preservation facts for the update phases -/

lemma PhysicsEngine.updateInAir_position (cfg : PhysicsEngine) (m : Marble) (dt : ℝ) :
    (cfg.updateInAir m dt).position = m.position := by
  simp only [PhysicsEngine.updateInAir]
  split_ifs <;> rfl

lemma PhysicsEngine.updateInAir_onPath (cfg : PhysicsEngine) (m : Marble) (dt : ℝ) :
    (cfg.updateInAir m dt).onPath = m.onPath := by
  simp only [PhysicsEngine.updateInAir]
  split_ifs <;> rfl

lemma PhysicsEngine.updateInAir_currentEquation (cfg : PhysicsEngine) (m : Marble) (dt : ℝ) :
    (cfg.updateInAir m dt).currentEquation = m.currentEquation := by
  simp only [PhysicsEngine.updateInAir]
  split_ifs <;> rfl

lemma PhysicsEngine.updateOnPath_onPath (cfg : PhysicsEngine) (m : Marble) (p : PathInfo)
    (dt : ℝ) : (cfg.updateOnPath m p dt).onPath = m.onPath := rfl

lemma PhysicsEngine.updateOnPath_currentEquation (cfg : PhysicsEngine) (m : Marble)
    (p : PathInfo) (dt : ℝ) :
    (cfg.updateOnPath m p dt).currentEquation = m.currentEquation := rfl

lemma PhysicsEngine.clampMinVelocity_position (cfg : PhysicsEngine) (m : Marble) :
    (cfg.clampMinVelocity m).position = m.position := by
  simp only [PhysicsEngine.clampMinVelocity]
  split_ifs <;> rfl

lemma PhysicsEngine.clampMinVelocity_onPath (cfg : PhysicsEngine) (m : Marble) :
    (cfg.clampMinVelocity m).onPath = m.onPath := by
  simp only [PhysicsEngine.clampMinVelocity]
  split_ifs <;> rfl

lemma PhysicsEngine.clampMinVelocity_currentEquation (cfg : PhysicsEngine) (m : Marble) :
    (cfg.clampMinVelocity m).currentEquation = m.currentEquation := by
  simp only [PhysicsEngine.clampMinVelocity]
  split_ifs <;> rfl

/-! ### Claim theorems -/

/-- Generic characterisation of the attachment policy (shared helper). -/
lemma shouldAttach_iff (cfg : PhysicsEngine) (m : Marble) (p : PathInfo) :
    cfg.shouldAttachToPath m p = true ↔
      (|m.velocity.dot p.tangent.normalize| > 0.5 * |m.velocity.dot p.normal.normalize| ∨
       p.distance < ((0.1 : ℝ) : WithTop ℝ) ∨
       m.velocity.dot ((p.closestPoint.sub m.position).normalize) > 0) := by
  show (if |m.velocity.dot p.tangent.normalize| > |m.velocity.dot p.normal.normalize| * 0.5 ∨
        p.distance < ((0.1 : ℝ) : WithTop ℝ) then true
      else if m.velocity.dot ((Vec2.mk (p.closestPoint.x - m.position.x)
          (p.closestPoint.y - m.position.y)).normalize) > 0 then true else false) = true ↔ _
  have hsub : (Vec2.mk (p.closestPoint.x - m.position.x) (p.closestPoint.y - m.position.y))
      = p.closestPoint.sub m.position := rfl
  rw [hsub]
  split_ifs with h1 h2
  · refine ⟨fun _ => ?_, fun _ => rfl⟩
    rcases h1 with h1 | h1
    · exact Or.inl (by linarith)
    · exact Or.inr (Or.inl h1)
  · exact ⟨fun _ => Or.inr (Or.inr h2), fun _ => rfl⟩
  · push_neg at h1
    simp only [Bool.false_eq_true, false_iff]
    push_neg
    exact ⟨by linarith [h1.1], h1.2, le_of_not_lt h2⟩

/-- Claim C1: `shouldAttachToPath` returns `true` exactly when the
tangential speed exceeds half the normal speed, or the reported distance
is below `0.1`, or the velocity has positive dot product with the unit
vector from the marble toward the closest point; otherwise `false`. -/
theorem claim_C1_shouldAttach_iff (cfg : PhysicsEngine) (m : Marble) (p : PathInfo) :
    cfg.shouldAttachToPath m p = true ↔
      (|m.velocity.dot p.tangent.normalize| > 0.5 * |m.velocity.dot p.normal.normalize| ∨
       p.distance < ((0.1 : ℝ) : WithTop ℝ) ∨
       m.velocity.dot ((p.closestPoint.sub m.position).normalize) > 0) :=
  shouldAttach_iff cfg m p

/-- Generic characterisation of the detachment policy (shared helper;
when the curvature is `0` the centripetal condition is vacuous in both
the guarded and unguarded readings). -/
lemma shouldDetach_iff (cfg : PhysicsEngine) (m : Marble) (p : PathInfo) :
    cfg.shouldDetachFromPath m p = true ↔
      ((atan2 |p.tangent.y| |p.tangent.x| > cfg.maxSlopeAngle ∧
        m.velocity.magnitude < cfg.detachThreshold) ∨
       m.velocity.magnitude * m.velocity.magnitude * |p.curvature| >
         2 * |cfg.gravity * Real.cos (atan2 |p.tangent.y| |p.tangent.x|)|) := by
  show (if atan2 |p.tangent.y| |p.tangent.x| > cfg.maxSlopeAngle ∧
          m.velocity.magnitude < cfg.detachThreshold then true
      else if p.curvature ≠ 0 ∧
          m.velocity.magnitude * m.velocity.magnitude * |p.curvature| >
            |cfg.gravity * Real.cos (atan2 |p.tangent.y| |p.tangent.x|)| * 2 then true
      else false) = true ↔ _
  split_ifs with h1 h2
  · exact ⟨fun _ => Or.inl h1, fun _ => rfl⟩
  · exact ⟨fun _ => Or.inr (by linarith [h2.2]), fun _ => rfl⟩
  · push_neg at h1 h2
    simp only [Bool.false_eq_true, false_iff]
    push_neg
    refine ⟨h1, ?_⟩
    by_cases hc : p.curvature = 0
    · rw [hc]
      simp only [abs_zero, mul_zero]
      positivity
    · linarith [h2 hc]

/-- Claim C2: `shouldDetachFromPath` returns `true` exactly when the slope
angle `atan2 |tangent.y| |tangent.x|` exceeds `maxSlopeAngle` while the
speed is below `detachThreshold`, or the required centripetal
acceleration `speed^2 * |curvature|` exceeds
`2 * |gravity * cos slopeAngle|`. -/
theorem claim_C2_shouldDetach_iff (cfg : PhysicsEngine) (m : Marble) (p : PathInfo) :
    cfg.shouldDetachFromPath m p = true ↔
      ((atan2 |p.tangent.y| |p.tangent.x| > cfg.maxSlopeAngle ∧
        m.velocity.magnitude < cfg.detachThreshold) ∨
       m.velocity.magnitude * m.velocity.magnitude * |p.curvature| >
         2 * |cfg.gravity * Real.cos (atan2 |p.tangent.y| |p.tangent.x|)|) :=
  shouldDetach_iff cfg m p

/-- Claim C8: in free fall the update first adds `gravity * dt` to the
vertical velocity, then applies quadratic drag `airDrag * speed^2`
against the direction of motion, as
`velocity += normalize velocity * (-drag) * dt` (at zero speed the drag
term vanishes, so the guarded and unguarded forms agree). -/
theorem claim_C8_free_fall (cfg : PhysicsEngine) (m : Marble) (dt : ℝ) :
    (cfg.updateInAir m dt).velocity =
      (Vec2.mk m.velocity.x (m.velocity.y + cfg.gravity * dt)).add
        (((Vec2.mk m.velocity.x (m.velocity.y + cfg.gravity * dt)).normalize.mul
          (-(cfg.airDrag *
            (Vec2.mk m.velocity.x (m.velocity.y + cfg.gravity * dt)).magnitude ^ 2))).mul dt) := by
  set v1 : Vec2 := Vec2.mk m.velocity.x (m.velocity.y + cfg.gravity * dt) with hv1
  show (if v1.magnitude > 0 then
          { m with velocity :=
              v1.add ((v1.normalize.mul (-(cfg.airDrag * v1.magnitude * v1.magnitude))).mul dt) }
        else { m with velocity := v1 }).velocity = _
  split_ifs with h
  · simp only
    congr 1
    ring
  · push_neg at h
    have h0 : v1.magnitude = 0 := le_antisymm h (Real.sqrt_nonneg _)
    have hz : v1 = ⟨0, 0⟩ := Vec2.eq_zero_of_magnitude_eq_zero v1 h0
    simp only
    rw [hz]
    show (⟨0, 0⟩ : Vec2) = Vec2.add ⟨0, 0⟩ _
    simp [Vec2.add, Vec2.mul, Vec2.normalize, Vec2.magnitude, Vec2.div]

/-! ### Star collection and attachment-state invariants -/

/-- Claim C6: within one update step every star's `collected` flag only
moves from `false` to `true`, exactly when the circle-circle test against
the post-integration marble passes for a previously uncollected star,
and is never reset. -/
theorem claim_C6_collected_monotone (cfg : PhysicsEngine) (m : Marble) (dt : ℝ)
    (eqs : List Equation) (stars : List Star) :
    List.Forall₂ (fun s s' : Star =>
        (s.collected = true → s'.collected = true) ∧
        (s.collected = false →
          (s'.collected = true ↔ cfg.checkCollision (cfg.movedMarble m dt eqs) s = true)))
      stars (cfg.update m dt eqs stars).stars := by
  have hstars : (cfg.update m dt eqs stars).stars =
      stars.map (fun s =>
        if !s.collected && cfg.checkCollision (cfg.movedMarble m dt eqs) s then
          { s with collected := true } else s) := rfl
  rw [hstars]
  clear hstars
  induction stars with
  | nil => exact List.Forall₂.nil
  | cons s rest ih =>
    refine List.Forall₂.cons ?_ ih
    by_cases hc : s.collected
    · simp [hc]
    · by_cases hk : cfg.checkCollision (cfg.movedMarble m dt eqs) s
      · simp [hc, hk]
      · simp [hc, hk]

lemma pathPhase_invariant (cfg : PhysicsEngine) (m : Marble) (τ : ℝ) (eqs : List Equation) :
    ((cfg.updatePathPhase m τ eqs).1.onPath = true ↔
      (cfg.updatePathPhase m τ eqs).1.currentEquation ≠ none) := by
  unfold PhysicsEngine.updatePathPhase
  cases hfind : cfg.findNearestPath m eqs with
  | none =>
    simp [PhysicsEngine.updateInAir_onPath, PhysicsEngine.updateInAir_currentEquation]
  | some p =>
    simp only
    split_ifs with h1 h2 h3
    · simp
    · simp only
      rw [PhysicsEngine.updateOnPath_onPath, PhysicsEngine.updateOnPath_currentEquation]
      simp
    · simp [PhysicsEngine.updateInAir_onPath, PhysicsEngine.updateInAir_currentEquation]
    · simp [PhysicsEngine.updateInAir_onPath, PhysicsEngine.updateInAir_currentEquation]

/-- Claim C10: after construction, after `reset`, and after every update
step, `onPath` holds exactly when `currentEquation` is non-null. -/
theorem claim_C10_onPath_iff_equation :
    (∀ (x y vx vy r : ℝ) (n : ℕ),
      ((Marble.init x y vx vy r n).onPath = true ↔
        (Marble.init x y vx vy r n).currentEquation ≠ none)) ∧
    (∀ (m : Marble) (x y : ℝ),
      ((m.reset x y).onPath = true ↔ (m.reset x y).currentEquation ≠ none)) ∧
    (∀ (cfg : PhysicsEngine) (m : Marble) (dt : ℝ) (eqs : List Equation) (stars : List Star),
      ((cfg.update m dt eqs stars).marble.onPath = true ↔
        (cfg.update m dt eqs stars).marble.currentEquation ≠ none)) := by
  refine ⟨fun x y vx vy r n => by simp [Marble.init], fun m x y => by simp [Marble.reset], ?_⟩
  intro cfg m dt eqs stars
  have h1 : (cfg.update m dt eqs stars).marble.onPath =
      (cfg.updatePathPhase m (dt * cfg.timeScale) eqs).1.onPath := by
    show (cfg.clampMinVelocity _).onPath = _
    rw [PhysicsEngine.clampMinVelocity_onPath]
    rfl
  have h2 : (cfg.update m dt eqs stars).marble.currentEquation =
      (cfg.updatePathPhase m (dt * cfg.timeScale) eqs).1.currentEquation := by
    show (cfg.clampMinVelocity _).currentEquation = _
    rw [PhysicsEngine.clampMinVelocity_currentEquation]
    rfl
  rw [h1, h2]
  exact pathPhase_invariant cfg m (dt * cfg.timeScale) eqs

/-! ### Iteration bounds of the numerical searches -/

/-- One step of the implicit-curve gradient descent. -/
noncomputable def descentStep (cfg : PhysicsEngine) (eq : Equation) (p : ℝ × ℝ) : ℝ × ℝ :=
  match eq.evaluate2 p.1 p.2 with
  | none => p
  | some f =>
    if |f| < 0.01 then p
    else
      let grad := cfg.calculateGradient eq p.1 p.2
      let gradMag := grad.magnitude
      if gradMag < 0.001 then p
      else
        let step := f / (gradMag * gradMag)
        (p.1 - grad.x * step * 0.1, p.2 - grad.y * step * 0.1)

lemma descentStep_fixed_of_none (cfg : PhysicsEngine) (eq : Equation) (p : ℝ × ℝ)
    (h : eq.evaluate2 p.1 p.2 = none) : descentStep cfg eq p = p := by
  unfold descentStep
  rw [h]

lemma descentLoop_eq_iterate (cfg : PhysicsEngine) (eq : Equation) :
    ∀ (n : ℕ) (x y : ℝ), cfg.descentLoop eq x y n = (descentStep cfg eq)^[n] (x, y) := by
  intro n
  induction n with
  | zero => intro x y; rfl
  | succ k ih =>
    intro x y
    rw [Function.iterate_succ_apply]
    rw [PhysicsEngine.descentLoop]
    cases hev : eq.evaluate2 x y with
    | none =>
      have hfix : descentStep cfg eq (x, y) = (x, y) := by
        unfold descentStep
        rw [hev]
      rw [hfix, Function.iterate_fixed hfix]
    | some f =>
      by_cases hf : |f| < 0.01
      · have hfix : descentStep cfg eq (x, y) = (x, y) := by
          unfold descentStep
          rw [hev]
          simp [hf]
        rw [hfix, Function.iterate_fixed hfix]
        simp [hf]
      · by_cases hg : (cfg.calculateGradient eq x y).magnitude < 0.001
        · have hfix : descentStep cfg eq (x, y) = (x, y) := by
            unfold descentStep
            rw [hev]
            simp [hf, hg]
          rw [hfix, Function.iterate_fixed hfix]
          simp [hf, hg]
        · have hstep : descentStep cfg eq (x, y) =
              (x - (cfg.calculateGradient eq x y).x *
                  (f / ((cfg.calculateGradient eq x y).magnitude *
                    (cfg.calculateGradient eq x y).magnitude)) * 0.1,
               y - (cfg.calculateGradient eq x y).y *
                  (f / ((cfg.calculateGradient eq x y).magnitude *
                    (cfg.calculateGradient eq x y).magnitude)) * 0.1) := by
            unfold descentStep
            rw [hev]
            simp [hf, hg]
          rw [hstep]
          simp only [hf, hg, if_neg, ite_false]
          rw [ih]

lemma goldenLoop_fuel_ge :
    ∀ (n : ℕ) (dAt : ℝ → WithTop ℝ) (a b : ℝ) (i f₁ f₂ : ℕ),
      50 - i ≤ n → n ≤ f₁ → n ≤ f₂ →
      goldenLoop dAt a b i f₁ = goldenLoop dAt a b i f₂ := by
  intro n
  induction n with
  | zero =>
    intro dAt a b i f₁ f₂ h1 h2 h3
    have hi : ¬ i < 50 := by omega
    have hstop : ∀ f : ℕ, goldenLoop dAt a b i f = (a, b) := by
      intro f
      cases f with
      | zero => rfl
      | succ g =>
        rw [goldenLoop, if_neg]
        intro hc
        exact hi hc.2
    rw [hstop, hstop]
  | succ k ih =>
    intro dAt a b i f₁ f₂ h1 h2 h3
    cases f₁ with
    | zero => omega
    | succ g₁ =>
      cases f₂ with
      | zero => omega
      | succ g₂ =>
        rw [goldenLoop, goldenLoop]
        split_ifs with hcond
        · simp only
          split_ifs with hcmp
          · exact ih dAt a _ (i+1) g₁ g₂ (by omega) (by omega) (by omega)
          · exact ih dAt _ b (i+1) g₁ g₂ (by omega) (by omega) (by omega)
        · rfl

lemma polarScanLoop_fuel :
    ∀ (n : ℕ) (pos : Vec2) (eq : Equation) (tmax t bt : ℝ) (bd : WithTop ℝ) (f₁ f₂ : ℕ),
      tmax < t + 0.05 * n → n ≤ f₁ → n ≤ f₂ →
      polarScanLoop pos eq tmax t bt bd f₁ = polarScanLoop pos eq tmax t bt bd f₂ := by
  intro n
  induction n with
  | zero =>
    intro pos eq tmax t bt bd f₁ f₂ h1 h2 h3
    have ht : ¬ t ≤ tmax := by
      push_cast at h1
      push_neg
      linarith
    have hstop : ∀ f : ℕ, polarScanLoop pos eq tmax t bt bd f = (bt, bd) := by
      intro f
      cases f with
      | zero => rfl
      | succ g => rw [polarScanLoop, if_neg ht]
    rw [hstop, hstop]
  | succ k ih =>
    intro pos eq tmax t bt bd f₁ f₂ h1 h2 h3
    have hnext : tmax < (t + 0.05) + 0.05 * k := by
      push_cast at h1 ⊢
      linarith
    cases f₁ with
    | zero => omega
    | succ g₁ =>
      cases f₂ with
      | zero => omega
      | succ g₂ =>
        rw [polarScanLoop, polarScanLoop]
        split_ifs with hcond
        · cases hev : eq.evaluate t with
          | none =>
            simp only [hev]
            exact ih pos eq tmax (t + 0.05) bt bd g₁ g₂ hnext (by omega) (by omega)
          | some r =>
            simp only [hev]
            split_ifs with hlt
            · exact ih pos eq tmax (t + 0.05) t _ g₁ g₂ hnext (by omega) (by omega)
            · exact ih pos eq tmax (t + 0.05) bt bd g₁ g₂ hnext (by omega) (by omega)
        · rfl

lemma parametricScanLoop_fuel :
    ∀ (n : ℕ) (pos : Vec2) (eq : Equation) (tmax t bt : ℝ) (bd : WithTop ℝ) (f₁ f₂ : ℕ),
      tmax < t + 0.05 * n → n ≤ f₁ → n ≤ f₂ →
      parametricScanLoop pos eq tmax t bt bd f₁ = parametricScanLoop pos eq tmax t bt bd f₂ := by
  intro n
  induction n with
  | zero =>
    intro pos eq tmax t bt bd f₁ f₂ h1 h2 h3
    have ht : ¬ t ≤ tmax := by
      push_cast at h1
      push_neg
      linarith
    have hstop : ∀ f : ℕ, parametricScanLoop pos eq tmax t bt bd f = (bt, bd) := by
      intro f
      cases f with
      | zero => rfl
      | succ g => rw [parametricScanLoop, if_neg ht]
    rw [hstop, hstop]
  | succ k ih =>
    intro pos eq tmax t bt bd f₁ f₂ h1 h2 h3
    have hnext : tmax < (t + 0.05) + 0.05 * k := by
      push_cast at h1 ⊢
      linarith
    cases f₁ with
    | zero => omega
    | succ g₁ =>
      cases f₂ with
      | zero => omega
      | succ g₂ =>
        rw [parametricScanLoop, parametricScanLoop]
        split_ifs with hcond
        · cases hevx : eq.evaluateX t with
          | none =>
            simp only [hevx]
            exact ih pos eq tmax (t + 0.05) bt bd g₁ g₂ hnext (by omega) (by omega)
          | some px =>
            cases hevy : eq.evaluateY t with
            | none =>
              simp only [hevx, hevy]
              exact ih pos eq tmax (t + 0.05) bt bd g₁ g₂ hnext (by omega) (by omega)
            | some py =>
              simp only [hevx, hevy]
              split_ifs with hlt
              · exact ih pos eq tmax (t + 0.05) t _ g₁ g₂ hnext (by omega) (by omega)
              · exact ih pos eq tmax (t + 0.05) bt bd g₁ g₂ hnext (by omega) (by omega)
        · rfl

/-- Claim C9: every closest-point search terminates within its iteration
bound.  Golden section stabilises at fuel 50 (its `iter < 50` guard) and
stops immediately once the bracket width is at most `1e-3`; the implicit
gradient descent is exactly 20 applications of one descent step; the
polar and parametric scans stabilise at 126 samples (their `0.05`-step
ranges of width `2π < 6.3`), so each analyzer, and hence every update
step, returns. -/
theorem claim_C9_bounded_iterations :
    (∀ (dAt : ℝ → WithTop ℝ) (a b : ℝ) (f : ℕ), 50 ≤ f →
      goldenLoop dAt a b 0 f = goldenLoop dAt a b 0 50) ∧
    (∀ (dAt : ℝ → WithTop ℝ) (a b : ℝ) (i f : ℕ), ¬(|b - a| > 0.001) →
      goldenLoop dAt a b i f = (a, b)) ∧
    (∀ (cfg : PhysicsEngine) (pos : Vec2) (eq : Equation),
      cfg.findClosestPointImplicit pos eq = (descentStep cfg eq)^[20] (pos.x, pos.y)) ∧
    (∀ (pos : Vec2) (eq : Equation) (t bt : ℝ) (bd : WithTop ℝ) (f : ℕ), 126 ≤ f →
      polarScanLoop pos eq (t + Real.pi) (t - Real.pi) bt bd f =
        polarScanLoop pos eq (t + Real.pi) (t - Real.pi) bt bd 126) ∧
    (∀ (pos : Vec2) (eq : Equation) (bt : ℝ) (bd : WithTop ℝ) (f : ℕ), 126 ≤ f →
      parametricScanLoop pos eq (2 * Real.pi) 0 bt bd f =
        parametricScanLoop pos eq (2 * Real.pi) 0 bt bd 126) := by
  refine ⟨?_, ?_, ?_, ?_, ?_⟩
  · intro dAt a b f hf
    exact goldenLoop_fuel_ge 50 dAt a b 0 f 50 (by omega) hf (by omega)
  · intro dAt a b i f hw
    exact goldenLoop_stop dAt a b i f hw
  · intro cfg pos eq
    exact descentLoop_eq_iterate cfg eq 20 pos.x pos.y
  · intro pos eq t bt bd f hf
    have hpi : t + Real.pi < (t - Real.pi) + 0.05 * (126:ℕ) := by
      push_cast
      have := Real.pi_lt_d2
      linarith
    exact polarScanLoop_fuel 126 pos eq (t + Real.pi) (t - Real.pi) bt bd f 126 hpi hf (by omega)
  · intro pos eq bt bd f hf
    have hpi : 2 * Real.pi < 0 + 0.05 * (126:ℕ) := by
      push_cast
      have := Real.pi_lt_d2
      linarith
    exact parametricScanLoop_fuel 126 pos eq (2 * Real.pi) 0 bt bd f 126 hpi hf (by omega)

/-! ### Failure absorption -/

/-- Claim C7: the update step never fails: a curve whose evaluator always
throws (or returns non-finite values) is treated exactly like no curve at
all, a failing sample makes the numerical derivative `0`, and a failing
sample makes the gradient fall back to `(0, 1)`; the embedded `update`
is a total function by construction. -/
theorem claim_C7_total_update (cfg : PhysicsEngine) (m : Marble) (dt : ℝ)
    (stars : List Star) (eq : Equation)
    (hty : eq.type = EqKind.explicit_y)
    (hev : ∀ t, eq.evaluate t = none) :
    cfg.update m dt [eq] stars = cfg.update m dt [] stars ∧
    (∀ (e : Equation) (x : ℝ),
      (e.evaluate (x - cfg.derivativeStep) = none ∨ e.evaluate (x + cfg.derivativeStep) = none) →
      cfg.calculateDerivative e x = 0) ∧
    (∀ (e : Equation) (x y : ℝ),
      (e.evaluate2 (x + cfg.derivativeStep) y = none ∨ e.evaluate2 (x - cfg.derivativeStep) y = none ∨
       e.evaluate2 x (y + cfg.derivativeStep) = none ∨ e.evaluate2 x (y - cfg.derivativeStep) = none) →
      cfg.calculateGradient e x y = ⟨0, 1⟩) := by
  refine ⟨?_, ?_, ?_⟩
  · have hana : cfg.analyzePathAtPoint m eq = none := by
      rw [PhysicsEngine.analyzePathAtPoint, hty]
      rw [PhysicsEngine.analyzeExplicitY]
      simp only [hev]
    have h1 : cfg.findNearestPath m [eq] = none := by
      rw [PhysicsEngine.findNearestPath, PhysicsEngine.findNearestPathAux]
      rw [if_neg (by rw [hty]; intro h; cases h)]
      rw [hana]
      rfl
    have h0 : cfg.findNearestPath m [] = none := rfl
    have hphase : ∀ τ, cfg.updatePathPhase m τ [eq] = cfg.updatePathPhase m τ [] := by
      intro τ
      rw [PhysicsEngine.updatePathPhase, PhysicsEngine.updatePathPhase, h1, h0]
    have hmoved : cfg.movedMarble m dt [eq] = cfg.movedMarble m dt [] := by
      rw [PhysicsEngine.movedMarble, PhysicsEngine.movedMarble, hphase]
    rw [PhysicsEngine.update, PhysicsEngine.update,
        PhysicsEngine.updateCore, PhysicsEngine.updateCore, hphase, hmoved]
  · intro e x h
    rw [PhysicsEngine.calculateDerivative]
    rcases h with h | h
    · rw [h]
    · rw [h]
      cases e.evaluate (x - cfg.derivativeStep) <;> rfl
  · intro e x y h
    rw [PhysicsEngine.calculateGradient]
    rcases h with h | h | h | h
    · rw [h]
    · rw [h]
      cases e.evaluate2 (x + cfg.derivativeStep) y <;> rfl
    · rw [h]
      cases e.evaluate2 (x + cfg.derivativeStep) y <;>
        cases e.evaluate2 (x - cfg.derivativeStep) y <;> rfl
    · rw [h]
      cases e.evaluate2 (x + cfg.derivativeStep) y <;>
        cases e.evaluate2 (x - cfg.derivativeStep) y <;>
        cases e.evaluate2 x (y + cfg.derivativeStep) <;> rfl

/-- An equation object whose every evaluator throws. -/
noncomputable def failEq : Equation :=
  { type := EqKind.explicit_y
    evaluate := fun _ => none
    evaluate2 := fun _ _ => none
    evaluateX := fun _ => none
    evaluateY := fun _ => none }

/-- A marble resting at the origin with zero velocity. -/
noncomputable def marbleW : Marble := Marble.init 0 0 0 0 0.2 30

/-- Witness for claim C7 at the always-failing explicit curve. -/
theorem claim_C7_witness :
    PhysicsEngine.defaults.update marbleW 0 [failEq] [] =
      PhysicsEngine.defaults.update marbleW 0 [] [] :=
  (claim_C7_total_update PhysicsEngine.defaults marbleW 0 [] failEq rfl (fun _ => rfl)).1

/-! ### The minimum-velocity clamp -/

lemma updateTrail_velocity (m : Marble) : m.updateTrail.velocity = m.velocity := rfl

lemma updateTrail_position (m : Marble) : m.updateTrail.position = m.position := rfl

lemma update_marble_velocity (cfg : PhysicsEngine) (m : Marble) (dt : ℝ)
    (eqs : List Equation) (stars : List Star) :
    (cfg.update m dt eqs stars).marble =
      cfg.clampMinVelocity (cfg.updateCore m dt eqs stars).marble := rfl

lemma updateInAir_zero_velocity (cfg : PhysicsEngine) (m : Marble) (dt : ℝ)
    (hvx : m.velocity.x = 0) (hvy : m.velocity.y + cfg.gravity * dt = 0) :
    (cfg.updateInAir m dt).velocity = ⟨0, 0⟩ := by
  have hv1 : (⟨m.velocity.x, m.velocity.y + cfg.gravity * dt⟩ : Vec2) = ⟨0, 0⟩ := by
    rw [hvx, hvy]
  simp only [PhysicsEngine.updateInAir, hv1]
  rw [if_neg (by simp [Vec2.magnitude])]

lemma updateCoreW_velocity :
    (PhysicsEngine.defaults.updateCore marbleW 0 [] []).marble.velocity = ⟨0, 0⟩ := by
  show ((PhysicsEngine.defaults.movedMarble marbleW 0 []).updateTrail).velocity = _
  rw [updateTrail_velocity]
  show ((PhysicsEngine.defaults.updatePathPhase marbleW
      (0 * PhysicsEngine.defaults.timeScale) []).1).velocity = _
  show (PhysicsEngine.defaults.updateInAir
      { marbleW with onPath := false, currentEquation := none }
      (0 * PhysicsEngine.defaults.timeScale)).velocity = _
  exact updateInAir_zero_velocity _ _ _ rfl (by
    show (0:ℝ) + PhysicsEngine.defaults.gravity * (0 * PhysicsEngine.defaults.timeScale) = 0
    ring)

/-- Claim C4, amended: at the end of a step, a velocity whose magnitude
fell below `minVelocity` is nudged: along the previous direction (scaled
to `2 * minVelocity`) when that velocity is nonzero, and otherwise to the
fixed vector `(0.01, gravity * 0.01)` (which has a small positive `x`
component rather than pointing straight down). -/
theorem claim_C4_min_velocity_nudge (cfg : PhysicsEngine) (m : Marble) (dt : ℝ)
    (eqs : List Equation) (stars : List Star)
    (h : (cfg.updateCore m dt eqs stars).marble.velocity.magnitude < cfg.minVelocity) :
    (cfg.update m dt eqs stars).marble.velocity =
      if (cfg.updateCore m dt eqs stars).marble.velocity.magnitude > 0 then
        ((cfg.updateCore m dt eqs stars).marble.velocity.normalize.mul (cfg.minVelocity * 2))
      else ⟨0.01, cfg.gravity * 0.01⟩ := by
  rw [update_marble_velocity, PhysicsEngine.clampMinVelocity, if_pos h]
  split_ifs with h2 <;> rfl

lemma coreW_magnitude :
    (PhysicsEngine.defaults.updateCore marbleW 0 [] []).marble.velocity.magnitude = 0 := by
  rw [updateCoreW_velocity]
  show Real.sqrt (0 * 0 + 0 * 0) = 0
  rw [show (0:ℝ) * 0 + 0 * 0 = 0 by ring, Real.sqrt_zero]

/-- Witness for claim C4: the resting marble with zero velocity gets the
fixed nudge vector. -/
theorem claim_C4_witness :
    (PhysicsEngine.defaults.update marbleW 0 [] []).marble.velocity =
      ⟨0.01, PhysicsEngine.defaults.gravity * 0.01⟩ := by
  have h : (PhysicsEngine.defaults.updateCore marbleW 0 [] []).marble.velocity.magnitude <
      PhysicsEngine.defaults.minVelocity := by
    rw [coreW_magnitude]
    norm_num [PhysicsEngine.defaults]
  rw [claim_C4_min_velocity_nudge PhysicsEngine.defaults marbleW 0 [] [] h]
  rw [if_neg (by rw [coreW_magnitude]; norm_num)]

lemma updateW_velocity :
    (PhysicsEngine.defaults.update marbleW 0 [] []).marble.velocity =
      ⟨0.01, PhysicsEngine.defaults.gravity * 0.01⟩ := by
  rw [update_marble_velocity, PhysicsEngine.clampMinVelocity]
  rw [if_pos (by rw [coreW_magnitude]; norm_num [PhysicsEngine.defaults])]
  rw [if_neg (by rw [coreW_magnitude]; norm_num)]

/-- Counterexample to claim C4 as stated: the pre-clamp velocity is zero,
so the claim requires a straight-down nudge (zero `x` component), but the
code nudges to `(0.01, gravity * 0.01)`, whose `x` component is nonzero. -/
theorem claim_C4_counterexample :
    (PhysicsEngine.defaults.updateCore marbleW 0 [] []).marble.velocity = ⟨0, 0⟩ ∧
    (PhysicsEngine.defaults.update marbleW 0 [] []).marble.velocity.x ≠ 0 := by
  refine ⟨updateCoreW_velocity, ?_⟩
  rw [updateW_velocity]
  norm_num

/-! ### A dt = 0 step: the implicit line scenario -/

/-- The implicit line `y - 2 = 0`. -/
noncomputable def eqLine : Equation :=
  { type := EqKind.implicit
    evaluate := fun _ => none
    evaluate2 := fun _ y => some (y - 2)
    evaluateX := fun _ => none
    evaluateY := fun _ => none }

/-- A previously-attached marble with no curve nearby. -/
noncomputable def mC3 : Marble :=
  { position := ⟨0, 0⟩
    velocity := ⟨1, 0⟩
    radius := 0.2
    onPath := true
    currentEquation := some eqLine
    trail := []
    maxTrailLength := 30
    active := true }

/-- A marble just above the line `y = 2`, falling toward it. -/
noncomputable def mC3b : Marble :=
  { position := ⟨0, 2.3⟩
    velocity := ⟨0, -1⟩
    radius := 0.2
    onPath := false
    currentEquation := none
    trail := []
    maxTrailLength := 30
    active := true }

lemma mag01 : (⟨0, 1⟩ : Vec2).magnitude = 1 := by
  show Real.sqrt (0 * 0 + 1 * 1) = 1
  rw [show (0:ℝ) * 0 + 1 * 1 = 1 by ring]
  exact Real.sqrt_one

lemma normalize_unitY : (⟨0, 1⟩ : Vec2).normalize = ⟨0, 1⟩ := by
  rw [Vec2.normalize, mag01]
  rw [if_neg (by norm_num)]
  rw [Vec2.div, if_neg (by norm_num)]
  refine Vec2.ext ?_ ?_ <;> norm_num

lemma mag_negX : (⟨-1, 0⟩ : Vec2).magnitude = 1 := by
  show Real.sqrt (-1 * -1 + 0 * 0) = 1
  rw [show (-1:ℝ) * -1 + 0 * 0 = 1 by ring]
  exact Real.sqrt_one

lemma normalize_negX : (⟨-1, 0⟩ : Vec2).normalize = ⟨-1, 0⟩ := by
  rw [Vec2.normalize, mag_negX]
  rw [if_neg (by norm_num)]
  rw [Vec2.div, if_neg (by norm_num)]
  refine Vec2.ext ?_ ?_ <;> norm_num

lemma mag_vert_neg (A : ℝ) (hA : 0 < A) : (⟨0, -A⟩ : Vec2).magnitude = A := by
  show Real.sqrt (0 * 0 + -A * -A) = A
  rw [show (0:ℝ) * 0 + -A * -A = A ^ 2 by ring]
  exact Real.sqrt_sq hA.le

lemma normalize_vert_neg (A : ℝ) (hA : 0 < A) :
    (⟨0, -A⟩ : Vec2).normalize = ⟨0, -1⟩ := by
  rw [Vec2.normalize, mag_vert_neg A hA]
  rw [if_neg (by linarith)]
  rw [Vec2.div, if_neg (by linarith)]
  refine Vec2.ext ?_ ?_
  · show 0 / A = 0
    simp
  · show -A / A = -1
    field_simp

lemma gradLine (x y : ℝ) :
    PhysicsEngine.defaults.calculateGradient eqLine x y = ⟨0, 1⟩ := by
  show (⟨((y - 2) - (y - 2)) / (2 * PhysicsEngine.defaults.derivativeStep),
      (((y + PhysicsEngine.defaults.derivativeStep) - 2) -
        ((y - PhysicsEngine.defaults.derivativeStep) - 2)) /
        (2 * PhysicsEngine.defaults.derivativeStep)⟩ : Vec2) = _
  have hstep : PhysicsEngine.defaults.derivativeStep = 0.001 := rfl
  rw [hstep]
  refine Vec2.ext ?_ ?_
  · show ((y - 2) - (y - 2)) / (2 * 0.001) = 0
    rw [show (y - 2) - (y - 2) = 0 by ring]
    simp
  · show (((y + 0.001) - 2) - ((y - 0.001) - 2)) / (2 * 0.001) = 1
    rw [show ((y + 0.001) - 2) - ((y - 0.001) - 2) = 0.002 by ring]
    norm_num

lemma descent_line_step (y : ℝ) (fuel : ℕ) (hy : 0.01 ≤ |y - 2|) :
    PhysicsEngine.defaults.descentLoop eqLine 0 y (fuel + 1) =
      PhysicsEngine.defaults.descentLoop eqLine 0 (y - (y - 2) * 0.1) fuel := by
  rw [PhysicsEngine.descentLoop]
  show (if |y - 2| < 0.01 then ((0:ℝ), y) else _) = _
  rw [if_neg (by push_neg; linarith)]
  simp only [gradLine]
  rw [mag01]
  rw [if_neg (by norm_num)]
  show PhysicsEngine.defaults.descentLoop eqLine (0 - 0 * ((y-2) / (1*1)) * 0.1)
      (y - 1 * ((y-2) / (1*1)) * 0.1) fuel = _
  rw [show (0:ℝ) - 0 * ((y-2) / (1*1)) * 0.1 = 0 by ring]
  rw [show y - 1 * ((y-2) / (1*1)) * 0.1 = y - (y - 2) * 0.1 by ring]

lemma descent_line_geom :
    ∀ (n : ℕ) (c : ℝ), 0.01 ≤ 0.9 ^ n * c →
      PhysicsEngine.defaults.descentLoop eqLine 0 (2 + c) (n + 1) =
        (0, 2 + 0.9 ^ (n + 1) * c) := by
  intro n
  induction n with
  | zero =>
    intro c hc
    rw [descent_line_step (2 + c) 0 (by rw [show (2 + c) - 2 = c by ring]; rw [pow_zero, one_mul] at hc; rw [abs_of_pos (by linarith)]; exact hc)]
    show ((0:ℝ), 2 + c - ((2 + c) - 2) * 0.1) = _
    rw [show 2 + c - ((2 + c) - 2) * 0.1 = 2 + 0.9 ^ 1 * c by ring]
  | succ k ih =>
    intro c hc
    have hp : (0:ℝ) < 0.9 ^ (k + 1) := by positivity
    have hc0 : 0 < c := by nlinarith
    have hcle : (0.9:ℝ) ^ (k + 1) * c ≤ c := by
      nlinarith [pow_le_one₀ (by norm_num : (0:ℝ) ≤ 0.9) (by norm_num : (0.9:ℝ) ≤ 1) (n := k + 1)]
    rw [descent_line_step (2 + c) (k + 1) (by rw [show (2 + c) - 2 = c by ring, abs_of_pos hc0]; linarith)]
    rw [show 2 + c - ((2 + c) - 2) * 0.1 = 2 + 0.9 * c by ring]
    rw [ih (0.9 * c) (by rw [show (0.9:ℝ) ^ k * (0.9 * c) = 0.9 ^ (k+1) * c by ring]; exact hc)]
    rw [show (0.9:ℝ) ^ (k + 1) * (0.9 * c) = 0.9 ^ (k + 2) * c by ring]

lemma findClosestB :
    PhysicsEngine.defaults.findClosestPointImplicit (⟨0, 2.3⟩ : Vec2) eqLine =
      (0, 2 + 0.9 ^ 20 * 0.3) := by
  show PhysicsEngine.defaults.descentLoop eqLine 0 2.3 20 = _
  rw [show (2.3:ℝ) = 2 + 0.3 by norm_num]
  rw [descent_line_geom 19 0.3 (by norm_num)]


/-- Geometry of the nearest point of `eqLine` from `(0, 2.3)`. -/
noncomputable def pathInfoB : PathInfo :=
  { equation := eqLine
    closestPoint := ⟨0, 2 + 0.9 ^ 20 * 0.3⟩
    distance := ((0.3 - 0.9 ^ 20 * 0.3 : ℝ) : WithTop ℝ)
    tangent := ⟨-1, 0⟩
    normal := ⟨0, 1⟩
    curvature := 0 }

lemma curvLine (x y : ℝ) :
    PhysicsEngine.defaults.calculateImplicitCurvature eqLine x y = 0 := by
  have hstep : PhysicsEngine.defaults.derivativeStep = 0.001 := rfl
  show (if ((((y - 2) - (y - 2)) / (2 * PhysicsEngine.defaults.derivativeStep)) *
          (((y - 2) - (y - 2)) / (2 * PhysicsEngine.defaults.derivativeStep)) +
          ((((y + PhysicsEngine.defaults.derivativeStep) - 2) -
            ((y - PhysicsEngine.defaults.derivativeStep) - 2)) /
            (2 * PhysicsEngine.defaults.derivativeStep)) *
          ((((y + PhysicsEngine.defaults.derivativeStep) - 2) -
            ((y - PhysicsEngine.defaults.derivativeStep) - 2)) /
            (2 * PhysicsEngine.defaults.derivativeStep))) ^ (1.5:ℝ) = 0 then 0
        else _ / _ ^ (1.5:ℝ)) = 0
  split_ifs with hden
  · rfl
  · rw [div_eq_zero_iff]
    left
    rw [abs_eq_zero]
    ring

lemma distB : (Vec2.distanceTo ⟨0, 2.3⟩ ⟨0, 2 + 0.9 ^ 20 * 0.3⟩ : ℝ) =
    0.3 - 0.9 ^ 20 * 0.3 := by
  show Real.sqrt ((0 - 0) * (0 - 0) +
      (2.3 - (2 + 0.9 ^ 20 * 0.3)) * (2.3 - (2 + 0.9 ^ 20 * 0.3))) = 0.3 - 0.9 ^ 20 * 0.3
  rw [show ((0:ℝ) - 0) * (0 - 0) +
      (2.3 - (2 + 0.9 ^ 20 * 0.3)) * (2.3 - (2 + 0.9 ^ 20 * 0.3)) =
      (0.3 - 0.9 ^ 20 * 0.3) ^ 2 by ring]
  exact Real.sqrt_sq (by norm_num)

lemma analyzeB :
    PhysicsEngine.defaults.analyzePathAtPoint mC3b eqLine = some pathInfoB := by
  show PhysicsEngine.defaults.analyzeImplicit mC3b.position eqLine = some pathInfoB
  rw [PhysicsEngine.analyzeImplicit]
  rw [show mC3b.position = (⟨0, 2.3⟩ : Vec2) from rfl]
  rw [findClosestB]
  simp only
  rw [gradLine, normalize_unitY, curvLine, distB]
  rfl

lemma findNearestB :
    PhysicsEngine.defaults.findNearestPath mC3b [eqLine] = some pathInfoB := by
  rw [PhysicsEngine.findNearestPath, PhysicsEngine.findNearestPathAux]
  rw [if_neg (by show ¬(EqKind.implicit = EqKind.inequality); intro h; cases h)]
  rw [analyzeB]
  show (if pathInfoB.distance < ⊤ then _ else _) = _
  rw [if_pos (by show ((0.3 - 0.9 ^ 20 * 0.3 : ℝ) : WithTop ℝ) < ⊤; exact WithTop.coe_lt_top _)]
  rfl

lemma attachB : PhysicsEngine.defaults.shouldAttachToPath mC3b pathInfoB = true := by
  rw [shouldAttach_iff]
  right
  right
  rw [show Vec2.sub pathInfoB.closestPoint mC3b.position = ⟨0, -(0.3 - 0.9 ^ 20 * 0.3)⟩ from by
    refine Vec2.ext ?_ ?_
    · show (0:ℝ) - 0 = 0
      ring
    · show (2 + 0.9 ^ 20 * 0.3) - 2.3 = -(0.3 - 0.9 ^ 20 * 0.3)
      ring]
  rw [normalize_vert_neg _ (by norm_num)]
  show (0:ℝ) * 0 + -1 * -1 > 0
  norm_num

lemma update_marble_position (cfg : PhysicsEngine) (m : Marble) (dt : ℝ)
    (eqs : List Equation) (stars : List Star) :
    (cfg.update m dt eqs stars).marble.position = (cfg.movedMarble m dt eqs).position := by
  show (cfg.clampMinVelocity ((cfg.movedMarble m dt eqs).updateTrail)).position = _
  rw [PhysicsEngine.clampMinVelocity_position]
  rfl

lemma add_mul_zero_dt (p v : Vec2) (ts : ℝ) : p.add (v.mul (0 * ts)) = p := by
  refine Vec2.ext ?_ ?_
  · show p.x + v.x * (0 * ts) = p.x
    ring
  · show p.y + v.y * (0 * ts) = p.y
    ring

lemma phaseB_position :
    ((PhysicsEngine.defaults.updatePathPhase mC3b (0 * PhysicsEngine.defaults.timeScale)
      [eqLine]).1).position =
    mC3b.position.lerp ⟨0, 2 + 0.9 ^ 20 * 0.3⟩ PhysicsEngine.defaults.snapStrength := by
  rw [PhysicsEngine.updatePathPhase, findNearestB]
  simp only
  rw [if_pos (by
    show pathInfoB.distance < ((PhysicsEngine.defaults.snapDistance : ℝ) : WithTop ℝ)
    show ((0.3 - 0.9 ^ 20 * 0.3 : ℝ) : WithTop ℝ) < _
    rw [show PhysicsEngine.defaults.snapDistance = 0.5 from rfl, WithTop.coe_lt_coe]
    norm_num)]
  rw [if_pos attachB]
  split_ifs <;> rfl

/-- Counterexample to claim C3 as stated: with `dt = 0`, (a) a marble
that was attached but has no curve nearby has its `onPath` flag flipped
to `false`, and (b) a marble that attaches to the implicit line `y = 2`
has its position moved by the snap interpolation. -/
theorem claim_C3_counterexample :
    ((PhysicsEngine.defaults.update mC3 0 [] []).marble.onPath = false ∧ mC3.onPath = true) ∧
    (PhysicsEngine.defaults.update mC3b 0 [eqLine] []).marble.position ≠ mC3b.position := by
  constructor
  · constructor
    · have h1 : (PhysicsEngine.defaults.update mC3 0 [] []).marble.onPath =
          ((PhysicsEngine.defaults.updatePathPhase mC3
            (0 * PhysicsEngine.defaults.timeScale) []).1).onPath := by
        show (PhysicsEngine.defaults.clampMinVelocity _).onPath = _
        rw [PhysicsEngine.clampMinVelocity_onPath]
        rfl
      rw [h1]
      show (PhysicsEngine.defaults.updateInAir
          { mC3 with onPath := false, currentEquation := none }
          (0 * PhysicsEngine.defaults.timeScale)).onPath = false
      rw [PhysicsEngine.updateInAir_onPath]
    · rfl
  · rw [update_marble_position, PhysicsEngine.movedMarble]
    simp only
    rw [add_mul_zero_dt, phaseB_position]
    intro h
    have hy := congrArg Vec2.y h
    refine absurd hy ?_
    show ¬((2.3 + ((2 + 0.9 ^ 20 * 0.3) - 2.3) * 0.4 : ℝ) = 2.3)
    norm_num


/-- Claim C3, amended: a step with `dt = 0` leaves the position unchanged
provided the marble does not attach to a path during that step; when it
attaches, the snap interpolation may move the position even with
`dt = 0`, and the attachment state is recomputed each step and may
change regardless of `dt`. -/
theorem claim_C3_dt_zero_amended (cfg : PhysicsEngine) (m : Marble)
    (eqs : List Equation) (stars : List Star)
    (h : ∀ p : PathInfo, cfg.findNearestPath m eqs = some p →
      ¬(p.distance < ((cfg.snapDistance : ℝ) : WithTop ℝ) ∧
        cfg.shouldAttachToPath m p = true)) :
    (cfg.update m 0 eqs stars).marble.position = m.position := by
  rw [update_marble_position, PhysicsEngine.movedMarble]
  simp only
  rw [add_mul_zero_dt]
  rw [PhysicsEngine.updatePathPhase]
  cases hfind : cfg.findNearestPath m eqs with
  | none =>
    simp only
    rw [PhysicsEngine.updateInAir_position]
  | some p =>
    simp only
    split_ifs with h1 h2 h3
    · exact absurd ⟨h1, h2⟩ (h p hfind)
    · exact absurd ⟨h1, h2⟩ (h p hfind)
    · rw [PhysicsEngine.updateInAir_position]
    · rw [PhysicsEngine.updateInAir_position]

/-- Witness for the amended claim C3 at a concrete no-curve input. -/
theorem claim_C3_witness :
    (PhysicsEngine.defaults.update marbleW 0 [] []).marble.position = marbleW.position :=
  claim_C3_dt_zero_amended PhysicsEngine.defaults marbleW [] []
    (fun p hp => absurd hp (by
      simp [PhysicsEngine.findNearestPath, PhysicsEngine.findNearestPathAux]))


/-! ### Constant curves through the golden-section search -/

lemma distanceAtX_const (pos : Vec2) (eq : Equation) (val : ℝ)
    (hev : eq.evaluate = fun _ => some val) (x : ℝ) :
    distanceAtX pos eq x = ((pos.distanceTo ⟨x, val⟩ : ℝ) : WithTop ℝ) := by
  unfold distanceAtX
  rw [hev]

lemma distanceAtY_const (pos : Vec2) (eq : Equation) (val : ℝ)
    (hev : eq.evaluate = fun _ => some val) (y : ℝ) :
    distanceAtY pos eq y = ((pos.distanceTo ⟨val, y⟩ : ℝ) : WithTop ℝ) := by
  unfold distanceAtY
  rw [hev]

lemma distanceAtX_const_lt (pos : Vec2) (eq : Equation) (val : ℝ)
    (hev : eq.evaluate = fun _ => some val) :
    ∀ u v : ℝ, (distanceAtX pos eq (pos.x + u) < distanceAtX pos eq (pos.x + v) ↔
      u ^ 2 < v ^ 2) := by
  intro u v
  rw [distanceAtX_const pos eq val hev, distanceAtX_const pos eq val hev,
      WithTop.coe_lt_coe]
  unfold Vec2.distanceTo
  rw [show (pos.x - (pos.x + u)) * (pos.x - (pos.x + u)) + (pos.y - val) * (pos.y - val) =
      u ^ 2 + (pos.y - val) ^ 2 by ring]
  rw [show (pos.x - (pos.x + v)) * (pos.x - (pos.x + v)) + (pos.y - val) * (pos.y - val) =
      v ^ 2 + (pos.y - val) ^ 2 by ring]
  rw [Real.sqrt_lt_sqrt_iff (by positivity)]
  exact add_lt_add_iff_right _

lemma distanceAtY_const_lt (pos : Vec2) (eq : Equation) (val : ℝ)
    (hev : eq.evaluate = fun _ => some val) :
    ∀ u v : ℝ, (distanceAtY pos eq (pos.y + u) < distanceAtY pos eq (pos.y + v) ↔
      u ^ 2 < v ^ 2) := by
  intro u v
  rw [distanceAtY_const pos eq val hev, distanceAtY_const pos eq val hev,
      WithTop.coe_lt_coe]
  unfold Vec2.distanceTo
  rw [show (pos.x - val) * (pos.x - val) + (pos.y - (pos.y + u)) * (pos.y - (pos.y + u)) =
      u ^ 2 + (pos.x - val) ^ 2 by ring]
  rw [show (pos.x - val) * (pos.x - val) + (pos.y - (pos.y + v)) * (pos.y - (pos.y + v)) =
      v ^ 2 + (pos.x - val) ^ 2 by ring]
  rw [Real.sqrt_lt_sqrt_iff (by positivity)]
  exact add_lt_add_iff_right _

lemma findClosestXOnCurve_const (cfg : PhysicsEngine) (pos : Vec2) (eq : Equation) (val : ℝ)
    (hev : eq.evaluate = fun _ => some val) :
    cfg.findClosestXOnCurve pos eq (pos.x - 3) (pos.x + 3) = pos.x + goldenResidual := by
  show ((goldenLoop (distanceAtX pos eq) (pos.x - 3) (pos.x + 3) 0 50).1 +
      (goldenLoop (distanceAtX pos eq) (pos.x - 3) (pos.x + 3) 0 50).2) / 2 = _
  rw [goldenLoop_const_result (distanceAtX pos eq) pos.x (distanceAtX_const_lt pos eq val hev)]
  unfold goldenResidual
  ring

lemma findClosestYOnCurve_const (cfg : PhysicsEngine) (pos : Vec2) (eq : Equation) (val : ℝ)
    (hev : eq.evaluate = fun _ => some val) :
    cfg.findClosestYOnCurve pos eq (pos.y - 3) (pos.y + 3) = pos.y + goldenResidual := by
  show ((goldenLoop (distanceAtY pos eq) (pos.y - 3) (pos.y + 3) 0 50).1 +
      (goldenLoop (distanceAtY pos eq) (pos.y - 3) (pos.y + 3) 0 50).2) / 2 = _
  rw [goldenLoop_const_result (distanceAtY pos eq) pos.y (distanceAtY_const_lt pos eq val hev)]
  unfold goldenResidual
  ring

lemma calculateDerivative_const (cfg : PhysicsEngine) (eq : Equation) (val : ℝ)
    (hev : eq.evaluate = fun _ => some val) (x : ℝ) :
    cfg.calculateDerivative eq x = 0 := by
  rw [PhysicsEngine.calculateDerivative]
  simp only [hev]
  rw [show val - val = 0 by ring]
  simp

lemma calculateSecondDerivative_const (cfg : PhysicsEngine) (eq : Equation) (val : ℝ)
    (hev : eq.evaluate = fun _ => some val) (x : ℝ) :
    cfg.calculateSecondDerivative eq x = 0 := by
  rw [PhysicsEngine.calculateSecondDerivative]
  simp only [hev]
  rw [show val - 2 * val + val = 0 by ring]
  simp

lemma calculateDerivativeX_const (cfg : PhysicsEngine) (eq : Equation) (val : ℝ)
    (hev : eq.evaluate = fun _ => some val) (y : ℝ) :
    cfg.calculateDerivativeX eq y = 0 := by
  rw [PhysicsEngine.calculateDerivativeX]
  simp only [hev]
  rw [show val - val = 0 by ring]
  simp

lemma calculateSecondDerivativeX_const (cfg : PhysicsEngine) (eq : Equation) (val : ℝ)
    (hev : eq.evaluate = fun _ => some val) (y : ℝ) :
    cfg.calculateSecondDerivativeX eq y = 0 := by
  rw [PhysicsEngine.calculateSecondDerivativeX]
  simp only [hev]
  rw [show val - 2 * val + val = 0 by ring]
  simp

lemma mag_unitX : (⟨1, 0⟩ : Vec2).magnitude = 1 := by
  show Real.sqrt (1 * 1 + 0 * 0) = 1
  rw [show (1:ℝ) * 1 + 0 * 0 = 1 by ring]
  exact Real.sqrt_one

lemma normalize_unitX : (⟨1, 0⟩ : Vec2).normalize = ⟨1, 0⟩ := by
  rw [Vec2.normalize, mag_unitX]
  rw [if_neg (by norm_num)]
  rw [Vec2.div, if_neg (by norm_num)]
  refine Vec2.ext ?_ ?_ <;> norm_num

lemma perp_unitX : (⟨1, 0⟩ : Vec2).perpendicular = ⟨0, 1⟩ := by
  refine Vec2.ext ?_ ?_
  · show -(0:ℝ) = 0
    ring
  · rfl

lemma analyzeExplicitY_const (cfg : PhysicsEngine) (pos : Vec2) (eq : Equation) (val : ℝ)
    (hev : eq.evaluate = fun _ => some val) :
    cfg.analyzeExplicitY pos eq = some
      { equation := eq
        closestPoint := ⟨pos.x + goldenResidual, val⟩
        distance := ((Real.sqrt (goldenResidual ^ 2 + (pos.y - val) ^ 2) : ℝ) : WithTop ℝ)
        tangent := ⟨1, 0⟩
        normal := ⟨0, 1⟩
        curvature := 0 } := by
  rw [PhysicsEngine.analyzeExplicitY, findClosestXOnCurve_const cfg pos eq val hev]
  simp only [hev]
  rw [calculateDerivative_const cfg eq val hev,
      calculateSecondDerivative_const cfg eq val hev]
  rw [normalize_unitX, perp_unitX]
  rw [show |(0:ℝ)| / (1 + 0 * 0) ^ (1.5:ℝ) = 0 by rw [abs_zero]; simp]
  rw [show (pos.distanceTo ⟨pos.x + goldenResidual, val⟩ : ℝ) =
      Real.sqrt (goldenResidual ^ 2 + (pos.y - val) ^ 2) from by
    unfold Vec2.distanceTo
    congr 1
    ring]

lemma mag_unitY : (⟨0, 1⟩ : Vec2).magnitude = 1 := by
  show Real.sqrt (0 * 0 + 1 * 1) = 1
  rw [show (0:ℝ) * 0 + 1 * 1 = 1 by ring]
  exact Real.sqrt_one

lemma analyzeExplicitX_const (cfg : PhysicsEngine) (pos : Vec2) (eq : Equation) (val : ℝ)
    (hev : eq.evaluate = fun _ => some val) :
    cfg.analyzeExplicitX pos eq = some
      { equation := eq
        closestPoint := ⟨val, pos.y + goldenResidual⟩
        distance := ((Real.sqrt ((pos.x - val) ^ 2 + goldenResidual ^ 2) : ℝ) : WithTop ℝ)
        tangent := ⟨0, 1⟩
        normal := ⟨-1, 0⟩
        curvature := 0 } := by
  rw [PhysicsEngine.analyzeExplicitX, findClosestYOnCurve_const cfg pos eq val hev]
  simp only [hev]
  rw [calculateDerivativeX_const cfg eq val hev,
      calculateSecondDerivativeX_const cfg eq val hev]
  rw [normalize_unitY]
  rw [show |(0:ℝ)| / (1 + 0 * 0) ^ (1.5:ℝ) = 0 by rw [abs_zero]; simp]
  rw [show (pos.distanceTo ⟨val, pos.y + goldenResidual⟩ : ℝ) =
      Real.sqrt ((pos.x - val) ^ 2 + goldenResidual ^ 2) from by
    unfold Vec2.distanceTo
    congr 1
    ring]
  rfl


/-- A marble resting exactly on the line `y = 2`. -/
noncomputable def marble02 : Marble :=
  { position := ⟨0, 2⟩
    velocity := ⟨0, 0⟩
    radius := 0.2
    onPath := false
    currentEquation := none
    trail := []
    maxTrailLength := 30
    active := true }

lemma atan2_zero_one : atan2 0 1 = 0 := by
  rw [atan2, if_pos one_pos]
  rw [zero_div, Real.arctan_zero]

lemma update_marble_onPath (cfg : PhysicsEngine) (m : Marble) (dt : ℝ)
    (eqs : List Equation) (stars : List Star) :
    (cfg.update m dt eqs stars).marble.onPath =
      (cfg.updatePathPhase m (dt * cfg.timeScale) eqs).1.onPath := by
  show (cfg.clampMinVelocity _).onPath = _
  rw [PhysicsEngine.clampMinVelocity_onPath]
  rfl

lemma shouldDetach_false_flat (cfg : PhysicsEngine) (m : Marble) (p : PathInfo)
    (hty : |p.tangent.y| = 0) (htx : |p.tangent.x| = 1) (hc : p.curvature = 0)
    (hmax : 0 ≤ cfg.maxSlopeAngle) :
    cfg.shouldDetachFromPath m p = false := by
  cases hb : cfg.shouldDetachFromPath m p with
  | false => rfl
  | true =>
    exfalso
    have hD := (shouldDetach_iff cfg m p).mp hb
    rw [hty, htx, atan2_zero_one, hc] at hD
    rcases hD with ⟨h1, _⟩ | h2
    · linarith
    · rw [abs_zero, mul_zero] at h2
      have : (0:ℝ) ≤ 2 * |cfg.gravity * Real.cos 0| := by positivity
      linarith

/-- Claim C5, amended: for ConstantY and ConstantX curves the analyzer
returns a closest point lying exactly on the constant line, but its
search coordinate is the marble's coordinate plus the fixed
golden-section residual (positive and below the `1e-3` search tolerance),
not the exact perpendicular projection; the tangent is the line's
direction, the curvature is `0`, and a marble placed at `(0, 2)` with
zero velocity on the curve `y = 2` under the default (negative) gravity
attaches and remains bound, with tangent `(1, 0)`, for every `dt`. -/
theorem claim_C5_constant_curves_amended (cfg : PhysicsEngine) (m : Marble)
    (eqY eqX : Equation) (vy vx : ℝ)
    (hYty : eqY.type = EqKind.constant_y) (hYev : eqY.evaluate = fun _ => some vy)
    (hXty : eqX.type = EqKind.constant_x) (hXev : eqX.evaluate = fun _ => some vx) :
    cfg.analyzePathAtPoint m eqY = some
      { equation := eqY
        closestPoint := ⟨m.position.x + goldenResidual, vy⟩
        distance := ((Real.sqrt (goldenResidual ^ 2 + (m.position.y - vy) ^ 2) : ℝ) : WithTop ℝ)
        tangent := ⟨1, 0⟩
        normal := ⟨0, 1⟩
        curvature := 0 } ∧
    cfg.analyzePathAtPoint m eqX = some
      { equation := eqX
        closestPoint := ⟨vx, m.position.y + goldenResidual⟩
        distance := ((Real.sqrt ((m.position.x - vx) ^ 2 + goldenResidual ^ 2) : ℝ) : WithTop ℝ)
        tangent := ⟨0, 1⟩
        normal := ⟨-1, 0⟩
        curvature := 0 } ∧
    (0 < goldenResidual ∧ goldenResidual < 0.001) ∧
    (vy = 2 → ∀ dt : ℝ,
      (PhysicsEngine.defaults.update marble02 dt [eqY] []).marble.onPath = true) := by
  refine ⟨?_, ?_, ⟨goldenResidual_pos, goldenResidual_lt⟩, ?_⟩
  · rw [PhysicsEngine.analyzePathAtPoint, hYty]
    exact analyzeExplicitY_const cfg m.position eqY vy hYev
  · rw [PhysicsEngine.analyzePathAtPoint, hXty]
    exact analyzeExplicitX_const cfg m.position eqX vx hXev
  · intro hvy dt
    subst hvy
    have hana : PhysicsEngine.defaults.analyzePathAtPoint marble02 eqY = some
        { equation := eqY
          closestPoint := ⟨goldenResidual, 2⟩
          distance := ((goldenResidual : ℝ) : WithTop ℝ)
          tangent := ⟨1, 0⟩
          normal := ⟨0, 1⟩
          curvature := 0 } := by
      rw [PhysicsEngine.analyzePathAtPoint, hYty]
      have h := analyzeExplicitY_const PhysicsEngine.defaults (⟨0, 2⟩ : Vec2) eqY 2 hYev
      rw [show ((⟨0, 2⟩ : Vec2).x + goldenResidual) = goldenResidual from by
            show (0:ℝ) + goldenResidual = goldenResidual; ring] at h
      rw [show Real.sqrt (goldenResidual ^ 2 + ((⟨0, 2⟩ : Vec2).y - 2) ^ 2) =
            goldenResidual from by
          rw [show goldenResidual ^ 2 + ((⟨0, 2⟩ : Vec2).y - 2) ^ 2 = goldenResidual ^ 2 from by
            show goldenResidual ^ 2 + ((2:ℝ) - 2) ^ 2 = goldenResidual ^ 2; ring]
          exact Real.sqrt_sq goldenResidual_pos.le] at h
      exact h
    have hfind : PhysicsEngine.defaults.findNearestPath marble02 [eqY] = some
        { equation := eqY
          closestPoint := ⟨goldenResidual, 2⟩
          distance := ((goldenResidual : ℝ) : WithTop ℝ)
          tangent := ⟨1, 0⟩
          normal := ⟨0, 1⟩
          curvature := 0 } := by
      rw [PhysicsEngine.findNearestPath, PhysicsEngine.findNearestPathAux]
      rw [if_neg (by rw [hYty]; intro h; cases h)]
      rw [hana]
      show (if ((goldenResidual : ℝ) : WithTop ℝ) < ⊤ then _ else _) = _
      rw [if_pos (WithTop.coe_lt_top goldenResidual)]
      rfl
    have hatt : PhysicsEngine.defaults.shouldAttachToPath marble02
        { equation := eqY
          closestPoint := ⟨goldenResidual, 2⟩
          distance := ((goldenResidual : ℝ) : WithTop ℝ)
          tangent := ⟨1, 0⟩
          normal := ⟨0, 1⟩
          curvature := 0 } = true := by
      rw [shouldAttach_iff]
      right
      left
      show ((goldenResidual : ℝ) : WithTop ℝ) < ((0.1 : ℝ) : WithTop ℝ)
      rw [WithTop.coe_lt_coe]
      linarith [goldenResidual_lt]
    rw [update_marble_onPath]
    rw [PhysicsEngine.updatePathPhase]
    simp only [hfind]
    rw [if_pos (by
      show ((goldenResidual : ℝ) : WithTop ℝ) <
        ((PhysicsEngine.defaults.snapDistance : ℝ) : WithTop ℝ)
      rw [show PhysicsEngine.defaults.snapDistance = 0.5 from rfl, WithTop.coe_lt_coe]
      linarith [goldenResidual_lt])]
    rw [if_pos hatt]
    rw [if_neg (by
      rw [shouldDetach_false_flat _ _ _ (by show |(0:ℝ)| = 0; simp)
        (by show |(1:ℝ)| = 1; simp) rfl
        (by show (0:ℝ) ≤ Real.pi / 3; positivity)]
      simp)]
    show (PhysicsEngine.defaults.updateOnPath _ _ _).onPath = true
    rw [PhysicsEngine.updateOnPath_onPath]

/-- The constant curve `y = 2`. -/
noncomputable def eqConstY2 : Equation :=
  { type := EqKind.constant_y
    evaluate := fun _ => some 2
    evaluate2 := fun _ _ => none
    evaluateX := fun _ => none
    evaluateY := fun _ => none }

/-- The constant curve `x = 1`. -/
noncomputable def eqConstX1 : Equation :=
  { type := EqKind.constant_x
    evaluate := fun _ => some 1
    evaluate2 := fun _ _ => none
    evaluateX := fun _ => none
    evaluateY := fun _ => none }

/-- Counterexample to claim C5 as stated: for the curve `y = 2` and the
marble at `(0, 2)` the perpendicular projection is `(0, 2)`, but the
analyzer's closest point has `x = goldenResidual ≠ 0`. -/
theorem claim_C5_counterexample :
    ((PhysicsEngine.defaults.analyzePathAtPoint marble02 eqConstY2).map
      fun i => i.closestPoint.x) ≠ some marble02.position.x := by
  have h : PhysicsEngine.defaults.analyzePathAtPoint marble02 eqConstY2 = some
      { equation := eqConstY2
        closestPoint := ⟨marble02.position.x + goldenResidual, 2⟩
        distance := ((Real.sqrt (goldenResidual ^ 2 + (marble02.position.y - 2) ^ 2) : ℝ) :
          WithTop ℝ)
        tangent := ⟨1, 0⟩
        normal := ⟨0, 1⟩
        curvature := 0 } := by
    rw [PhysicsEngine.analyzePathAtPoint, show eqConstY2.type = EqKind.constant_y from rfl]
    exact analyzeExplicitY_const PhysicsEngine.defaults marble02.position eqConstY2 2 rfl
  rw [h]
  simp only [Option.map_some']
  intro hx
  have hx2 := Option.some.inj hx
  have : goldenResidual = 0 := by
    have h0 : marble02.position.x + goldenResidual = marble02.position.x := hx2
    linarith [congrArg id h0]
  linarith [goldenResidual_pos]

/-- Witness for the amended claim C5: the `(0, 2)` marble on `y = 2`
is attached after one step. -/
theorem claim_C5_witness :
    (PhysicsEngine.defaults.update marble02 1 [eqConstY2] []).marble.onPath = true :=
  (claim_C5_constant_curves_amended PhysicsEngine.defaults marble02 eqConstY2 eqConstX1
    2 1 rfl rfl rfl rfl).2.2.2 rfl 1


end MathMarble
